import Mathlib

/-!
Verification development for the two-agent flight rendezvous puzzle generator
(`scripts/generate_airport2.py`) and its companion solver/aggregator
(`scripts/analyze_puzzle_solutions.py`).

Shallow embedding conventions:
* Python floats are modelled as rationals (`ℚ`); `round(x, n)` is modelled as
  exact decimal rounding `round2` / `round1`.
* Every call to `random.uniform(a, b)` / `random.choice(...)` is modelled by an
  explicit draw parameter, constrained by a hypothesis to the interval the code
  draws from (the spec's §9 note: "thread an explicit pseudo-random generator
  handle through every function").
* The bulk generators (`generate_interest_flights` / `generate_filler_flights`)
  run data-dependent rejection-sampling loops.  Their per-flight acceptance
  step is embedded executably (`chooseCandidate` over the sequence of sampled
  candidates), and the loop as a whole is embedded as an inductive chain
  predicate describing precisely which flight lists the loop can append, for
  any sequence of draws.
* The great-circle geometry (`calculate_distance`) uses transcendental
  functions; its two outputs (distance, duration) enter the record
  construction as opaque rational parameters of each draw structure.  No claim
  below depends on the numeric value of a distance beyond the earth-geometry
  bound `distance ≤ 20016` (half the earth circumference, radius 6371 km).
-/

/-! ### Decimal rounding (Python `round(x, 2)` / `round(x, 1)`) -/

/-- `round(x, 2)`: round to 2 decimal places. -/
def round2 (x : ℚ) : ℚ := (round (x * 100) : ℤ) / 100

/-- `round(x, 1)`: round to 1 decimal place. -/
def round1 (x : ℚ) : ℚ := (round (x * 10) : ℤ) / 10

/-! ### Data model -/

/-- An airline reference record (`airlines` table entries). -/
structure Airline where
  code : String
  name : String
  continent : String
deriving DecidableEq, Repr

/-- A flight record, as appended to the generated catalog. -/
structure Flight where
  id : ℕ
  origin : String
  destination : String
  price : ℚ
  duration : ℚ
  date : String
  distance_km : ℚ
  airline : Airline
deriving DecidableEq, Repr

/-- An agent profile (`puzzle_description["friends"]` entries /
`PUZZLE_CONFIG` friend entries; both dictionaries carry identical values). -/
structure UserProfile where
  origin_airport : String
  available_dates : List String
  preferred_airlines : List String
  max_budget : ℚ
deriving DecidableEq, Repr

/-- The per-agent projection stored inside a solution record. -/
structure SolutionFlightInfo where
  id : ℕ
  price : ℚ
  airline : String
  duration : ℚ
deriving DecidableEq, Repr

/-- A solver output record (`find_solutions` appends these dictionaries). -/
structure Solution where
  destination : String
  date : String
  user_1_flight : SolutionFlightInfo
  user_2_flight : SolutionFlightInfo
deriving DecidableEq, Repr

/-! ### Reference configuration -/

/-- Agent A (`friend_a` in `PUZZLE_CONFIG`; `user_1` in the puzzle file). -/
def user_1 : UserProfile :=
  { origin_airport := "FCO"
    available_dates := ["2025-07-15", "2025-07-16", "2025-07-17", "2025-07-18", "2025-07-19"]
    preferred_airlines := ["LH", "SQ"]
    max_budget := 700 }

/-- Agent B (`friend_b` in `PUZZLE_CONFIG`; `user_2` in the puzzle file). -/
def user_2 : UserProfile :=
  { origin_airport := "FCO"
    available_dates := ["2025-07-17", "2025-07-18", "2025-07-19", "2025-07-20", "2025-07-21"]
    preferred_airlines := ["EK", "SQ"]
    max_budget := 810 }

/-- `PUZZLE_CONFIG["solution_destinations"]`: designated (airport, date) pairs. -/
def solution_destinations : List (String × String) :=
  [("SIN", "2025-07-17"), ("BKK", "2025-07-18"), ("DEL", "2025-07-19")]

/-- The `airlines` reference table (code, name, continent). -/
def airlines : List Airline :=
  [⟨"AA", "American Airlines", "north america"⟩,
   ⟨"LH", "Lufthansa", "europe"⟩,
   ⟨"LA", "LATAM Airlines", "south america"⟩,
   ⟨"ET", "Ethiopian Airlines", "africa"⟩,
   ⟨"SQ", "Singapore Airlines", "asia"⟩,
   ⟨"QF", "Qantas", "australia"⟩,
   ⟨"EK", "Emirates", "middle east"⟩,
   ⟨"AC", "Air Canada", "north america"⟩,
   ⟨"AF", "Air France", "europe"⟩,
   ⟨"NZ", "Air New Zealand", "new zealand"⟩]

/-- `ASIAN_AIRPORTS`. -/
def ASIAN_AIRPORTS : List String :=
  ["NRT", "ICN", "PEK", "PVG", "SIN", "BKK", "DEL", "MNL", "HKG", "KUL",
   "CGK", "BOM", "HAN", "TPE", "IKA", "KIX", "BLR", "CAN", "CTU"]

/-- All airport IATA codes (`iata_codes` in `generate_filler_flights`). -/
def iata_codes : List String :=
  ["YYZ", "YVR", "JFK", "LAX", "ORD", "DFW", "BOS", "DCA",
   "LHR", "CDG", "AMS", "FRA", "MAD", "ZRH", "LIS", "VIE", "PRG", "WAW",
   "BUD", "SVO", "FCO", "ARN",
   "DXB", "DOH", "TLV",
   "GRU", "EZE", "BOG", "LIM", "SCL", "GIG",
   "CAI", "JNB", "CMN", "NBO",
   "NRT", "ICN", "PEK", "PVG", "SIN", "BKK", "DEL", "MNL", "HKG", "KUL",
   "CGK", "BOM", "HAN", "TPE", "IKA", "KIX", "BLR", "CAN", "CTU",
   "SYD", "PER", "AKL"]

/-! ### GeometryPricingModel -/

/-- `calculate_flight_time(distance_km)`.  The uniform draw from
`[-0.15, 0.15]` is the explicit parameter `deviation`. -/
def calculate_flight_time (distance_km deviation : ℚ) : ℚ :=
  let base_speed : ℚ := if distance_km > 2000 then 800 else 600
  let base_time := distance_km / base_speed
  let flight_time := base_time * (1 + deviation)
  max 1 (round1 flight_time)

/-- `calculate_flight_price(distance_km, flight_time, is_solution)`.
`variation` is the `random.uniform(-0.15, 0.20)` market-variation draw;
`solDraw` is the `random.uniform(550, 680)` draw consumed only on the
solution path. -/
def calculate_flight_price (distance_km flight_time variation solDraw : ℚ)
    (is_solution : Bool) : ℚ :=
  let base_price_per_km : ℚ := (15 / 100) * (1 - min (1 / 2) (distance_km / 10000))
  let base_price := distance_km * base_price_per_km
  let time_multiplier : ℚ := 1 + flight_time / 12
  let final_price := base_price * time_multiplier * (1 + variation)
  let final_price :=
    if distance_km > 5000 then
      final_price * (1 - min (1 / 4) ((distance_km - 5000) / 20000))
    else final_price
  if is_solution then
    round2 solDraw
  else
    let min_price : ℚ := max 150 (distance_km * (8 / 100))
    round2 (max min_price (min 2000 final_price))

/-! ### Solver (`analyze_puzzle_solutions.find_solutions` / `is_valid_solution`) -/

/-- `is_valid_solution(flight_1, flight_2, user_1, user_2)`. -/
def is_valid_solution (flight_1 flight_2 : Flight) (u1 u2 : UserProfile) : Bool :=
  decide (flight_1.date = flight_2.date) &&
  decide (flight_1.date ∈ u1.available_dates) &&
  decide (flight_1.date ∈ u2.available_dates) &&
  decide (flight_1.price ≤ u1.max_budget) &&
  decide (flight_2.price ≤ u2.max_budget) &&
  decide (flight_1.airline.code ∈ u1.preferred_airlines) &&
  decide (flight_2.airline.code ∈ u2.preferred_airlines)

/-- First-occurrence deduplication: the distinct destinations of the catalog,
mirroring iteration over `set(flight["destination"] for flight in flights)`
(set iteration order is unspecified in Python; only the count/membership of the
groups produced from it matter). -/
def firstDedup : List String → List String
  | [] => []
  | k :: ks => k :: (firstDedup ks).filter (fun x => x ≠ k)

/-- `find_solutions(flights, puzzle)`: brute-force enumeration of all valid
ordered pairs, destination by destination. -/
def find_solutions (flights : List Flight) (u1 u2 : UserProfile) : List Solution :=
  let destinations := firstDedup (flights.map (·.destination))
  destinations.flatMap (fun destination =>
    let user_1_flights := flights.filter (fun f =>
      decide (f.origin = u1.origin_airport) && decide (f.destination = destination))
    let user_2_flights := flights.filter (fun f =>
      decide (f.origin = u2.origin_airport) && decide (f.destination = destination))
    user_1_flights.flatMap (fun flight_1 =>
      (user_2_flights.filter (fun flight_2 =>
          decide (flight_1.id ≠ flight_2.id) &&
          is_valid_solution flight_1 flight_2 u1 u2)).map (fun flight_2 =>
        { destination := destination
          date := flight_1.date
          user_1_flight := ⟨flight_1.id, flight_1.price, flight_1.airline.code, flight_1.duration⟩
          user_2_flight := ⟨flight_2.id, flight_2.price, flight_2.airline.code, flight_2.duration⟩ })))

/-! ### Aggregator (`analyze_solutions`) -/

/-- The report structure produced by `analyze_solutions`. -/
structure AnalysisResult where
  total_count : ℕ
  by_destination : List (String × List Solution)
  by_date : List (String × List Solution)
  by_airline_combo : List (String × List Solution)
deriving Repr

/-- `analyze_solutions(solutions)`: pure reduction grouping the solver output
by destination, by date and by airline combination.  Python's insertion-order
dicts of lists are modelled as association lists keyed by first occurrence. -/
def analyze_solutions (solutions : List Solution) : AnalysisResult :=
  if solutions = [] then
    { total_count := 0, by_destination := [], by_date := [], by_airline_combo := [] }
  else
    let comboKey := fun (sol : Solution) =>
      sol.user_1_flight.airline ++ "-" ++ sol.user_2_flight.airline
    { total_count := solutions.length
      by_destination := (firstDedup (solutions.map (·.destination))).map (fun k =>
        (k, solutions.filter (fun s => decide (s.destination = k))))
      by_date := (firstDedup (solutions.map (·.date))).map (fun k =>
        (k, solutions.filter (fun s => decide (s.date = k))))
      by_airline_combo := (firstDedup (solutions.map comboKey)).map (fun k =>
        (k, solutions.filter (fun s => decide (comboKey s = k)))) }

/-! ### UnintendedSolutionGuard (`would_create_unintended_solution`) -/

/-- `would_create_unintended_solution(origin, destination, date, price,
airline_code, existing_flights)`.  The three checks mirror the source: a
user-1-valid candidate with an existing user-2 partner, a user-2-valid
candidate with an existing user-1 partner, and the outright rejection of a
candidate inside both agents' overlap. -/
def would_create_unintended_solution (origin destination date : String) (price : ℚ)
    (airline_code : String) (existing_flights : List Flight) : Bool :=
  -- only check flights from rome (FCO) to prevent unintended solutions
  if origin ≠ "FCO" then false
  else
    ((decide (date ∈ user_1.available_dates) &&
      decide (price ≤ user_1.max_budget) &&
      decide (airline_code ∈ user_1.preferred_airlines)) &&
     existing_flights.any (fun flight =>
       decide (flight.origin = user_2.origin_airport) &&
       decide (flight.destination = destination) &&
       decide (flight.date = date) &&
       decide (flight.price ≤ user_2.max_budget) &&
       decide (flight.airline.code ∈ user_2.preferred_airlines) &&
       decide (date ∈ user_2.available_dates))) ||
    ((decide (date ∈ user_2.available_dates) &&
      decide (price ≤ user_2.max_budget) &&
      decide (airline_code ∈ user_2.preferred_airlines)) &&
     existing_flights.any (fun flight =>
       decide (flight.origin = user_1.origin_airport) &&
       decide (flight.destination = destination) &&
       decide (flight.date = date) &&
       decide (flight.price ≤ user_1.max_budget) &&
       decide (flight.airline.code ∈ user_1.preferred_airlines) &&
       decide (date ∈ user_1.available_dates))) ||
    (decide (date ∈ user_1.available_dates) && decide (date ∈ user_2.available_dates) &&
     decide (airline_code ∈ user_1.preferred_airlines) &&
     decide (airline_code ∈ user_2.preferred_airlines) &&
     decide (price ≤ user_1.max_budget) && decide (price ≤ user_2.max_budget))

/-! ### SolutionSynthesizer (`generate_solution_flights`) -/

/-- The random draws consumed while generating the 10 flights of one
designated destination, plus the geometry outputs (`calculate_distance` for
the route; both agents share the origin FCO, but the code computes distance
and jittered flight time once per agent). -/
structure DestDraws where
  distance_a : ℚ
  dev_a : ℚ       -- flight-time jitter for the agent-A geometry, uniform [-0.15, 0.15]
  distance_b : ℚ
  dev_b : ℚ
  shared_u1 : ℚ   -- uniform(550, 680) solution-price draw, shared flight 1
  shared_u2 : ℚ   -- uniform(550, 680), shared flight 2
  u2_sq_u : ℚ     -- uniform(705, min(805, 800)) for the user-2-only SQ flight
  u2_ek_u : ℚ     -- uniform(550, 680) solution-price draw, user-2-only EK flight
  d1_u : ℚ        -- uniform(0.6, 0.8), decoy 1 price factor
  d2_u : ℚ        -- uniform(0.5, 0.7), decoy 2 price factor
  d3_u : ℚ        -- uniform(0.4, 0.6), decoy 3 price factor
  d4_u : ℚ        -- uniform(0.3, 0.55), decoy 4 price factor
  d5_u : ℚ        -- uniform(50, 150), decoy 5 over-budget offset
  d6_u : ℚ        -- uniform(5, 25), decoy 6 over-budget offset

/-- The draw ranges `generate_solution_flights` samples from, written with the
budget constants the source uses (`user1_budget = 700`, `user2_budget = 810`). -/
def DestDrawsOk (w : DestDraws) : Prop :=
  (-(15 / 100) ≤ w.dev_a ∧ w.dev_a ≤ 15 / 100) ∧
  (-(15 / 100) ≤ w.dev_b ∧ w.dev_b ≤ 15 / 100) ∧
  (550 ≤ w.shared_u1 ∧ w.shared_u1 ≤ 680) ∧
  (550 ≤ w.shared_u2 ∧ w.shared_u2 ≤ 680) ∧
  (700 + 5 ≤ w.u2_sq_u ∧ w.u2_sq_u ≤ min (810 - 5) (700 + 100)) ∧
  (550 ≤ w.u2_ek_u ∧ w.u2_ek_u ≤ 680) ∧
  (6 / 10 ≤ w.d1_u ∧ w.d1_u ≤ 8 / 10) ∧
  (5 / 10 ≤ w.d2_u ∧ w.d2_u ≤ 7 / 10) ∧
  (4 / 10 ≤ w.d3_u ∧ w.d3_u ≤ 6 / 10) ∧
  (3 / 10 ≤ w.d4_u ∧ w.d4_u ≤ 55 / 100) ∧
  (50 ≤ w.d5_u ∧ w.d5_u ≤ 150) ∧
  (5 ≤ w.d6_u ∧ w.d6_u ≤ 25)

def airlineSQ : Airline := ⟨"SQ", "Singapore Airlines", "asia"⟩
def airlineEK : Airline := ⟨"EK", "Emirates", "middle east"⟩
def airlineLH : Airline := ⟨"LH", "Lufthansa", "europe"⟩
def airlineAA : Airline := ⟨"AA", "American Airlines", "north america"⟩

/-- The 10 flights `generate_solution_flights` appends for one designated
`(destination, date)` pair, with consecutive ids from `startId`.  The market
`variation` draw is consumed before the solution-path branch of
`calculate_flight_price` and its value is discarded there, so it is passed
as `0`. -/
def destFlights (startId : ℕ) (destination date : String) (w : DestDraws) : List Flight :=
  let distance_a := w.distance_a
  let flight_time_a := calculate_flight_time w.distance_a w.dev_a
  let distance_b := w.distance_b
  let flight_time_b := calculate_flight_time w.distance_b w.dev_b
  let shared_price_1 := calculate_flight_price distance_a flight_time_a 0 w.shared_u1 true
  let shared_price_2 := calculate_flight_price distance_a flight_time_a 0 w.shared_u2 true
  let u2_sq_price := round2 w.u2_sq_u
  let u2_ek_price := calculate_flight_price distance_b flight_time_b 0 w.u2_ek_u true
  let decoy_base_price_a := shared_price_1
  let decoy_base_price_b := u2_ek_price
  [ -- shared flights: valid for both users, forming A ∩ B
    { id := startId, origin := "FCO", destination := destination, price := shared_price_1,
      duration := flight_time_a, date := date, distance_km := round1 distance_a,
      airline := airlineSQ },
    { id := startId + 1, origin := "FCO", destination := destination, price := shared_price_2,
      duration := flight_time_a, date := date, distance_km := round1 distance_a,
      airline := airlineSQ },
    -- sq flight that only user 2 can afford
    { id := startId + 2, origin := "FCO", destination := destination, price := u2_sq_price,
      duration := flight_time_b, date := date, distance_km := round1 distance_b,
      airline := airlineSQ },
    -- ek flight: airline only preferred by user 2
    { id := startId + 3, origin := "FCO", destination := destination, price := u2_ek_price,
      duration := flight_time_b, date := date, distance_km := round1 distance_b,
      airline := airlineEK },
    -- decoy 1: cheap flight for user 1 with wrong airline
    { id := startId + 4, origin := "FCO", destination := destination,
      price := round2 (decoy_base_price_a * w.d1_u),
      duration := flight_time_a, date := date, distance_km := round1 distance_a,
      airline := airlineAA },
    -- decoy 2: cheap flight for user 2 on wrong date
    { id := startId + 5, origin := "FCO", destination := destination,
      price := round2 (decoy_base_price_b * w.d2_u),
      duration := flight_time_b, date := "2025-07-14", distance_km := round1 distance_b,
      airline := airlineSQ },
    -- decoy 3: orphaned cheap flight for user 1 only
    { id := startId + 6, origin := "FCO", destination := destination,
      price := round2 (decoy_base_price_a * w.d3_u),
      duration := flight_time_a, date := "2025-07-15", distance_km := round1 distance_a,
      airline := airlineLH },
    -- decoy 4: orphaned cheap flight for user 2 only
    { id := startId + 7, origin := "FCO", destination := destination,
      price := round2 (decoy_base_price_b * w.d4_u),
      duration := flight_time_b, date := "2025-07-21", distance_km := round1 distance_b,
      airline := airlineEK },
    -- decoy 5: over user 1's budget
    { id := startId + 8, origin := "FCO", destination := destination,
      price := round2 (700 + w.d5_u),
      duration := flight_time_a, date := date, distance_km := round1 distance_a,
      airline := airlineLH },
    -- decoy 6: over both users' budgets
    { id := startId + 9, origin := "FCO", destination := destination,
      price := round2 (810 + w.d6_u),
      duration := flight_time_a, date := date, distance_km := round1 distance_a,
      airline := airlineSQ } ]

/-- Draws for the whole `generate_solution_flights` run (one block per
designated destination). -/
structure SolDraws where
  dSIN : DestDraws
  dBKK : DestDraws
  dDEL : DestDraws

def SolDrawsOk (w : SolDraws) : Prop :=
  DestDrawsOk w.dSIN ∧ DestDrawsOk w.dBKK ∧ DestDrawsOk w.dDEL

/-- `generate_solution_flights()`: the loop over
`PUZZLE_CONFIG["solution_destinations"]`, unrolled over the three designated
destinations, threading the id counter from 1.  (The source also returns the
next id, 31.) -/
def generate_solution_flights (w : SolDraws) : List Flight :=
  destFlights 1 "SIN" "2025-07-17" w.dSIN ++
  destFlights 11 "BKK" "2025-07-18" w.dBKK ++
  destFlights 21 "DEL" "2025-07-19" w.dDEL

/-! ### CatalogPopulator (`generate_interest_flights` / `generate_filler_flights`) -/

/-- One sampled `(price, date, airline)` attempt of the rejection loops. -/
structure Candidate where
  price : ℚ
  date : String
  airline : Airline
deriving DecidableEq, Repr

/-- `solution_dates_used` for a route, as collected at the top of the
per-route loop of `generate_interest_flights`. -/
def solution_dates_used (origin destination : String) : List String :=
  (solution_destinations.filter (fun sol =>
    (decide (origin = user_1.origin_airport) && decide (destination = sol.1)) ||
    (decide (origin = user_2.origin_airport) && decide (destination = sol.1)))).map (·.2)

/-- Acceptance test of one attempt of the interest-flight rejection loop:
the candidate's date must not collide with a reserved designated-solution
date, and the Guard must not reject it. -/
def interestAccept (origin destination : String) (prev : List Flight)
    (c : Candidate) : Bool :=
  !(decide (c.date ∈ solution_dates_used origin destination)) &&
  !(would_create_unintended_solution origin destination c.date c.price c.airline.code prev)

/-- Acceptance test of one attempt of the filler-flight rejection loop. -/
def fillerAccept (origin destination : String) (prev : List Flight)
    (c : Candidate) : Bool :=
  !(would_create_unintended_solution origin destination c.date c.price c.airline.code prev)

/-- The bounded rejection-sampling loop for one flight: take the first
accepted candidate of the attempt sequence, or the deliberately invalid
fallback on exhaustion (`for ... else` in the source). -/
def chooseCandidate (accept : Candidate → Bool) (cands : List Candidate)
    (fallback : Candidate) : Candidate :=
  (cands.find? accept).getD fallback

/-- The airlines the fallback draws from:
`[a for a in airlines if a["code"] not in ["SQ", "LH", "EK"]]`. -/
def fallback_airlines : List Airline :=
  airlines.filter (fun a => !(decide (a.code ∈ ["SQ", "LH", "EK"])))

/-- The airlines `get_airline_for_route` can return for an `FCO → asia`
route: `[a for a in airlines if a["code"] in ["SQ", "LH", "EK"]]`. -/
def interest_route_airlines : List Airline :=
  airlines.filter (fun a => decide (a.code ∈ ["SQ", "LH", "EK"]))

/-- `covered_routes` of `generate_filler_flights`: the interest routes
(`POINTS_OF_INTEREST`: FCO to every asian airport) plus both agents' routes to
every designated solution airport. -/
def covered_routes : List (String × String) :=
  ASIAN_AIRPORTS.map (fun destination => ("FCO", destination)) ++
  solution_destinations.map (fun sol => (user_1.origin_airport, sol.1)) ++
  solution_destinations.map (fun sol => (user_2.origin_airport, sol.1))

/-- One iteration of the interest-flight generator may append `f` after the
already-generated list `prev` with id `id`: for some interest route
`FCO → destination`, some finite attempt sequence (each attempt's airline
drawn by `get_airline_for_route` for the route) and some fallback draw, `f` is
the record built from the loop's chosen candidate. -/
def InterestOk (prev : List Flight) (f : Flight) (id : ℕ) : Prop :=
  ∃ destination, destination ∈ ASIAN_AIRPORTS ∧
  ∃ (distance flight_dev : ℚ) (cands : List Candidate) (fb : Candidate)
    (fb_var fb_sol : ℚ),
    (∀ c ∈ cands, c.airline ∈ interest_route_airlines) ∧
    fb.airline ∈ fallback_airlines ∧
    (-(15 / 100) ≤ fb_var ∧ fb_var ≤ 20 / 100) ∧
    fb.price = calculate_flight_price distance
      (calculate_flight_time distance flight_dev) fb_var fb_sol false * 2 ∧
    (let c := chooseCandidate (interestAccept "FCO" destination prev) cands fb
     f = { id := id, origin := "FCO", destination := destination, price := c.price,
           duration := calculate_flight_time distance flight_dev, date := c.date,
           distance_km := round1 distance, airline := c.airline })

/-- One iteration of the filler-flight generator may append `f` after `prev`
with id `id`: a route sampled from two distinct airports, skipped unless it is
uncovered, then the same rejection-sampling/fallback discipline (each
attempt's airline drawn by `get_airline_for_route`, which for a non-interest
route may return any airline). -/
def FillerOk (prev : List Flight) (f : Flight) (id : ℕ) : Prop :=
  ∃ origin destination, origin ∈ iata_codes ∧ destination ∈ iata_codes ∧
    origin ≠ destination ∧ (origin, destination) ∉ covered_routes ∧
  ∃ (distance flight_dev : ℚ) (cands : List Candidate) (fb : Candidate)
    (fb_var fb_sol : ℚ),
    (∀ c ∈ cands, c.airline ∈ airlines) ∧
    fb.airline ∈ fallback_airlines ∧
    (-(15 / 100) ≤ fb_var ∧ fb_var ≤ 20 / 100) ∧
    fb.price = calculate_flight_price distance
      (calculate_flight_time distance flight_dev) fb_var fb_sol false * 2 ∧
    (let c := chooseCandidate (fillerAccept origin destination prev) cands fb
     f = { id := id, origin := origin, destination := destination, price := c.price,
           duration := calculate_flight_time distance flight_dev, date := c.date,
           distance_km := round1 distance, airline := c.airline })

/-- The lists of flights an append-only generation loop can produce: each
appended flight is justified by `Ok` against exactly the flights generated so
far, and ids are assigned by the monotonic counter starting at `start`. -/
inductive GenChain (Ok : List Flight → Flight → ℕ → Prop) (start : ℕ) : List Flight → Prop
  | nil : GenChain Ok start []
  | snoc (fs : List Flight) (f : Flight) :
      GenChain Ok start fs → Ok fs f (start + fs.length) → GenChain Ok start (fs ++ [f])

/-- A complete generated catalog: solution flights (ids 1–30), then interest
flights (ids from 31), then filler flights (ids continuing after the interest
flights), concatenated exactly as `all_flights = solution_flights +
interest_flights + filler_flights`. -/
def GeneratedCatalog (catalog : List Flight) : Prop :=
  ∃ (w : SolDraws) (interest filler : List Flight),
    SolDrawsOk w ∧
    GenChain InterestOk 31 interest ∧
    GenChain FillerOk (31 + interest.length) filler ∧
    catalog = generate_solution_flights w ++ interest ++ filler

/-- The per-destination partition predicate of the Solver: flights from the
agent's origin (both agents share origin FCO) to the given destination. -/
def byDest (destination : String) (f : Flight) : Bool :=
  decide (f.origin = "FCO") && decide (f.destination = destination)

/-- §3's set A, spelled from the spec: "flights valid for agentA at that
destination/date".  (Spec-derived definition, used to state the |A| = 2 part
of the combinatorial contract.) -/
def spec_validA (destination date : String) (f : Flight) : Bool :=
  decide (f.origin = user_1.origin_airport) && decide (f.destination = destination) &&
  decide (f.date = date) && decide (f.date ∈ user_1.available_dates) &&
  decide (f.price ≤ user_1.max_budget) && decide (f.airline.code ∈ user_1.preferred_airlines)

/-- §3's set B: flights valid for agentB at a designated destination/date.
(Spec-derived definition.) -/
def spec_validB (destination date : String) (f : Flight) : Bool :=
  decide (f.origin = user_2.origin_airport) && decide (f.destination = destination) &&
  decide (f.date = date) && decide (f.date ∈ user_2.available_dates) &&
  decide (f.price ≤ user_2.max_budget) && decide (f.airline.code ∈ user_2.preferred_airlines)

/-! ### Concrete sample data (used to instantiate the theorems below) -/

/-- A concrete draw vector inside every sampled range. -/
def sampleDestDraws : DestDraws :=
  { distance_a := 7000, dev_a := 0, distance_b := 7000, dev_b := 0,
    shared_u1 := 600, shared_u2 := 620, u2_sq_u := 750, u2_ek_u := 640,
    d1_u := 7 / 10, d2_u := 6 / 10, d3_u := 1 / 2, d4_u := 2 / 5,
    d5_u := 100, d6_u := 10 }

def sampleSolDraws : SolDraws :=
  { dSIN := sampleDestDraws, dBKK := sampleDestDraws, dDEL := sampleDestDraws }

/-- A concrete generated catalog: the synthesized solution flights with empty
interest/filler phases. -/
def sampleCatalog : List Flight := generate_solution_flights sampleSolDraws

/-- A two-flight catalog with one valid rendezvous pair. -/
def sampleFlights : List Flight :=
  [{ id := 1, origin := "FCO", destination := "SIN", price := 600, duration := 9,
     date := "2025-07-17", distance_km := 7000, airline := airlineSQ },
   { id := 2, origin := "FCO", destination := "SIN", price := 700, duration := 9,
     date := "2025-07-17", distance_km := 7000, airline := airlineSQ }]

def sampleSolution : Solution :=
  { destination := "SIN", date := "2025-07-17",
    user_1_flight := ⟨1, 600, "SQ", 9⟩, user_2_flight := ⟨2, 700, "SQ", 9⟩ }

/-- A candidate every acceptance test rejects (its date is a reserved
designated-solution date and it falls in both agents' overlap). -/
def sampleRejected : Candidate := ⟨600, "2025-07-17", airlineSQ⟩

/-- A concrete fallback draw: non-preferred carrier, doubled non-solution
price. -/
def sampleFallback : Candidate :=
  ⟨calculate_flight_price 7000 (calculate_flight_time 7000 0) 0 0 false * 2,
    "2025-07-03", airlineAA⟩

def sampleFlightG : Flight :=
  { id := 1, origin := "FCO", destination := "SIN", price := 600, duration := 9,
    date := "2025-07-17", distance_km := 7000, airline := airlineSQ }

/-! ### Rounding lemmas -/

theorem round_mono {x y : ℚ} (h : x ≤ y) : round x ≤ round y := by
  rw [round_eq, round_eq]
  exact Int.floor_mono (by linarith)

theorem le_round2 {n : ℤ} {x : ℚ} (h : (n : ℚ) ≤ x) : (n : ℚ) ≤ round2 x := by
  unfold round2
  have h1 : round ((n : ℚ) * 100) ≤ round (x * 100) := round_mono (by linarith)
  have h2 : round ((n : ℚ) * 100) = n * 100 := by
    have : ((n : ℚ) * 100) = ((n * 100 : ℤ) : ℚ) := by push_cast; ring
    rw [this, round_intCast]
  rw [h2] at h1
  rw [le_div_iff (by norm_num : (0:ℚ) < 100)]
  exact_mod_cast h1

theorem round2_le {n : ℤ} {x : ℚ} (h : x ≤ (n : ℚ)) : round2 x ≤ (n : ℚ) := by
  unfold round2
  have h1 : round (x * 100) ≤ round ((n : ℚ) * 100) := round_mono (by linarith)
  have h2 : round ((n : ℚ) * 100) = n * 100 := by
    have : ((n : ℚ) * 100) = ((n * 100 : ℤ) : ℚ) := by push_cast; ring
    rw [this, round_intCast]
  rw [h2] at h1
  rw [div_le_iff (by norm_num : (0:ℚ) < 100)]
  exact_mod_cast h1

theorem round2_mono {x y : ℚ} (h : x ≤ y) : round2 x ≤ round2 y := by
  unfold round2
  have := round_mono (show x * 100 ≤ y * 100 by linarith)
  have h100 : (0:ℚ) < 100 := by norm_num
  rw [div_le_div_iff_of_pos_right h100]
  exact_mod_cast this

theorem round2_close (x : ℚ) : x - 1 / 200 ≤ round2 x ∧ round2 x ≤ x + 1 / 200 := by
  have h := abs_sub_round (x * 100)
  rw [abs_le] at h
  constructor
  · unfold round2
    rw [le_div_iff (by norm_num : (0:ℚ) < 100)]
    linarith [h.1]
  · unfold round2
    rw [div_le_iff (by norm_num : (0:ℚ) < 100)]
    linarith [h.2]

theorem le_round1 {n : ℤ} {x : ℚ} (h : (n : ℚ) ≤ x) : (n : ℚ) ≤ round1 x := by
  unfold round1
  have h1 : round ((n : ℚ) * 10) ≤ round (x * 10) := round_mono (by linarith)
  have h2 : round ((n : ℚ) * 10) = n * 10 := by
    have : ((n : ℚ) * 10) = ((n * 10 : ℤ) : ℚ) := by push_cast; ring
    rw [this, round_intCast]
  rw [h2] at h1
  rw [le_div_iff (by norm_num : (0:ℚ) < 10)]
  exact_mod_cast h1

theorem round1_le {n : ℤ} {x : ℚ} (h : x ≤ (n : ℚ)) : round1 x ≤ (n : ℚ) := by
  unfold round1
  have h1 : round (x * 10) ≤ round ((n : ℚ) * 10) := round_mono (by linarith)
  have h2 : round ((n : ℚ) * 10) = n * 10 := by
    have : ((n : ℚ) * 10) = ((n * 10 : ℤ) : ℚ) := by push_cast; ring
    rw [this, round_intCast]
  rw [h2] at h1
  rw [div_le_iff (by norm_num : (0:ℚ) < 10)]
  exact_mod_cast h1

theorem round1_mono {x y : ℚ} (h : x ≤ y) : round1 x ≤ round1 y := by
  unfold round1
  have := round_mono (show x * 10 ≤ y * 10 by linarith)
  have h10 : (0:ℚ) < 10 := by norm_num
  rw [div_le_div_iff_of_pos_right h10]
  exact_mod_cast this

theorem round1_close (x : ℚ) : x - 1 / 20 ≤ round1 x ∧ round1 x ≤ x + 1 / 20 := by
  have h := abs_sub_round (x * 10)
  rw [abs_le] at h
  constructor
  · unfold round1
    rw [le_div_iff (by norm_num : (0:ℚ) < 10)]
    linarith [h.1]
  · unfold round1
    rw [div_le_iff (by norm_num : (0:ℚ) < 10)]
    linarith [h.2]

theorem round1_one : round1 1 = 1 := by
  unfold round1
  have : ((1 : ℚ) * 10) = ((10 : ℤ) : ℚ) := by norm_num
  rw [this, round_intCast]
  norm_num

/-- The source computes `max(1.0, round(t, 1))`; rounding and the 1-hour floor
commute, so this also equals "floor at 1, then round". -/
theorem round1_max_comm (x : ℚ) : max 1 (round1 x) = round1 (max 1 x) := by
  rcases le_total x 1 with h | h
  · rw [max_eq_left h]
    have hx : round1 x ≤ 1 := by
      have := round1_le (n := 1) (by exact_mod_cast h)
      simpa using this
    rw [max_eq_left hx, round1_one]
  · rw [max_eq_right h]
    have hx : (1:ℚ) ≤ round1 x := by
      have := le_round1 (n := 1) (by exact_mod_cast h)
      simpa using this
    rw [max_eq_right hx]

/-! ### Boolean characterizations -/

theorem is_valid_solution_iff (flight_1 flight_2 : Flight) (u1 u2 : UserProfile) :
    is_valid_solution flight_1 flight_2 u1 u2 = true ↔
      flight_1.date = flight_2.date ∧
      flight_1.date ∈ u1.available_dates ∧
      flight_1.date ∈ u2.available_dates ∧
      flight_1.price ≤ u1.max_budget ∧
      flight_2.price ≤ u2.max_budget ∧
      flight_1.airline.code ∈ u1.preferred_airlines ∧
      flight_2.airline.code ∈ u2.preferred_airlines := by
  simp [is_valid_solution, and_assoc]

theorem would_create_of_not_FCO {origin destination date : String} {price : ℚ}
    {airline_code : String} {existing_flights : List Flight} (h : origin ≠ "FCO") :
    would_create_unintended_solution origin destination date price airline_code
      existing_flights = false := by
  simp [would_create_unintended_solution, h]

theorem would_create_FCO_iff (destination date : String) (price : ℚ)
    (airline_code : String) (existing_flights : List Flight) :
    would_create_unintended_solution "FCO" destination date price airline_code
      existing_flights = true ↔
      ((date ∈ user_1.available_dates ∧ price ≤ user_1.max_budget ∧
          airline_code ∈ user_1.preferred_airlines) ∧
        ∃ flight ∈ existing_flights,
          flight.origin = user_2.origin_airport ∧ flight.destination = destination ∧
          flight.date = date ∧ flight.price ≤ user_2.max_budget ∧
          flight.airline.code ∈ user_2.preferred_airlines ∧
          date ∈ user_2.available_dates) ∨
      ((date ∈ user_2.available_dates ∧ price ≤ user_2.max_budget ∧
          airline_code ∈ user_2.preferred_airlines) ∧
        ∃ flight ∈ existing_flights,
          flight.origin = user_1.origin_airport ∧ flight.destination = destination ∧
          flight.date = date ∧ flight.price ≤ user_1.max_budget ∧
          flight.airline.code ∈ user_1.preferred_airlines ∧
          date ∈ user_1.available_dates) ∨
      (date ∈ user_1.available_dates ∧ date ∈ user_2.available_dates ∧
        airline_code ∈ user_1.preferred_airlines ∧
        airline_code ∈ user_2.preferred_airlines ∧
        price ≤ user_1.max_budget ∧ price ≤ user_2.max_budget) := by
  simp [would_create_unintended_solution, List.any_eq_true, and_assoc, or_assoc]

/-! ### `firstDedup` lemmas -/

theorem mem_firstDedup {a : String} : ∀ {l : List String}, a ∈ firstDedup l ↔ a ∈ l := by
  intro l
  induction l with
  | nil => simp [firstDedup]
  | cons k ks ih =>
    simp only [firstDedup, List.mem_cons, List.mem_filter]
    constructor
    · rintro (rfl | ⟨h1, _⟩)
      · exact .inl rfl
      · exact .inr (ih.mp h1)
    · rintro (rfl | h)
      · exact .inl rfl
      · by_cases hk : a = k
        · exact .inl hk
        · exact .inr ⟨ih.mpr h, by simpa using hk⟩

theorem nodup_firstDedup : ∀ (l : List String), (firstDedup l).Nodup := by
  intro l
  induction l with
  | nil => simp [firstDedup]
  | cons k ks ih =>
    simp only [firstDedup]
    refine List.Nodup.cons ?_ (ih.filter _)
    intro hmem
    have := (List.mem_filter.mp hmem).2
    simp at this

/-! ### Generation-chain lemmas -/

/-- Two distinct members of a list: one of them occurs with the other in its
preceding prefix. -/
theorem two_mem_split {α : Type} {l : List α} {f g : α} (hf : f ∈ l) (hg : g ∈ l)
    (hne : f ≠ g) :
    ∃ pre x suf, l = pre ++ x :: suf ∧ ((x = f ∧ g ∈ pre) ∨ (x = g ∧ f ∈ pre)) := by
  induction l with
  | nil => cases hf
  | cons a t ih =>
    rcases List.mem_cons.mp hf with rfl | hf'
    · have hg' : g ∈ t := by
        rcases List.mem_cons.mp hg with rfl | h
        · exact absurd rfl hne
        · exact h
      obtain ⟨p, s, rfl⟩ := List.append_of_mem hg'
      exact ⟨f :: p, g, s, rfl, .inr ⟨rfl, by simp⟩⟩
    · rcases List.mem_cons.mp hg with rfl | hg'
      · obtain ⟨p, s, rfl⟩ := List.append_of_mem hf'
        exact ⟨g :: p, f, s, rfl, .inl ⟨rfl, by simp⟩⟩
      · obtain ⟨pre, x, suf, rfl, hcase⟩ := ih hf' hg'
        refine ⟨a :: pre, x, suf, rfl, ?_⟩
        rcases hcase with ⟨rfl, h⟩ | ⟨rfl, h⟩
        · exact .inl ⟨rfl, List.mem_cons_of_mem a h⟩
        · exact .inr ⟨rfl, List.mem_cons_of_mem a h⟩

/-- Every decomposition point of a generation chain satisfies the step
predicate against exactly its preceding prefix. -/
theorem genChain_decomp {Ok : List Flight → Flight → ℕ → Prop} {start : ℕ}
    {l : List Flight} (h : GenChain Ok start l) :
    ∀ pre x suf, l = pre ++ x :: suf → Ok pre x (start + pre.length) := by
  induction h with
  | nil =>
    intro pre x suf h
    exact absurd h.symm (by simp)
  | snoc fs f hchain hok ih =>
    intro pre x suf heq
    rcases suf.eq_nil_or_concat with rfl | ⟨suf', y, rfl⟩
    · have hlen : fs.length = pre.length := by
        have := congrArg List.length heq
        simpa using this
      obtain ⟨h1, h2⟩ := List.append_inj heq hlen
      obtain rfl : f = x := by simpa using h2
      rw [← h1]
      exact hok
    · simp only [List.concat_eq_append] at heq
      rw [show pre ++ x :: (suf' ++ [y]) = (pre ++ x :: suf') ++ [y] by simp] at heq
      have hlen : fs.length = (pre ++ x :: suf').length := by
        have := congrArg List.length heq
        simp at this
        simp
        omega
      obtain ⟨h1, _⟩ := List.append_inj heq hlen
      exact ih pre x suf' h1

/-- Membership form of `genChain_decomp`. -/
theorem genChain_mem {Ok : List Flight → Flight → ℕ → Prop} {start : ℕ}
    {l : List Flight} (h : GenChain Ok start l) {f : Flight} (hf : f ∈ l) :
    ∃ pre, pre.Sublist l ∧ Ok pre f (start + pre.length) := by
  obtain ⟨pre, suf, rfl⟩ := List.append_of_mem hf
  exact ⟨pre, by simp, genChain_decomp h pre f suf rfl⟩

/-- If the step predicate forces the assigned id, a chain's ids are exactly
the consecutive range starting at `start`. -/
theorem genChain_map_id {Ok : List Flight → Flight → ℕ → Prop} {start : ℕ}
    {l : List Flight} (h : GenChain Ok start l)
    (hid : ∀ prev f k, Ok prev f k → f.id = k) :
    l.map Flight.id = List.range' start l.length := by
  induction h with
  | nil => rfl
  | snoc fs f hchain hok ih =>
    have hfid : f.id = start + fs.length := hid _ _ _ hok
    simp only [List.map_append, List.map_cons, List.map_nil, ih, hfid,
      List.length_append, List.length_cons, List.length_nil]
    simp [List.range'_concat]

theorem interestOk_id {prev : List Flight} {f : Flight} {k : ℕ}
    (h : InterestOk prev f k) : f.id = k := by
  obtain ⟨d, _, dist, dev, cands, fb, _, _, _, _, _, _, heq⟩ := h
  simp only at heq
  rw [heq]

theorem fillerOk_id {prev : List Flight} {f : Flight} {k : ℕ}
    (h : FillerOk prev f k) : f.id = k := by
  obtain ⟨o, d, _, _, _, _, dist, dev, cands, fb, _, _, _, _, _, _, heq⟩ := h
  simp only at heq
  rw [heq]

theorem mem_fallback_airlines {a : Airline} (h : a ∈ fallback_airlines) :
    a.code ∉ (["SQ", "LH", "EK"] : List String) := by
  have := (List.mem_filter.mp h).2
  simpa using this

/-- What is true of every flight the interest generator can append: it flies
an `FCO → asia` route, carries the assigned id, and is either a fallback
record with a non-preferred carrier, or an accepted candidate that dodged the
reserved solution dates and the Guard. -/
theorem interestOk_elim {prev : List Flight} {f : Flight} {k : ℕ}
    (h : InterestOk prev f k) :
    f.origin = "FCO" ∧ f.destination ∈ ASIAN_AIRPORTS ∧ f.id = k ∧
      (f.airline.code ∉ (["SQ", "LH", "EK"] : List String) ∨
        (f.date ∉ solution_dates_used "FCO" f.destination ∧
          would_create_unintended_solution "FCO" f.destination f.date f.price
            f.airline.code prev = false)) := by
  obtain ⟨d, hd, dist, dev, cands, fb, fbv, fbs, hcands, hfb, _, _, heq⟩ := h
  simp only at heq
  subst heq
  refine ⟨rfl, hd, rfl, ?_⟩
  simp only
  unfold chooseCandidate
  rcases hfind : cands.find? (interestAccept "FCO" d prev) with _ | c
  · simp only [Option.getD_none]
    exact .inl (mem_fallback_airlines hfb)
  · simp only [Option.getD_some]
    have hacc : interestAccept "FCO" d prev c = true := List.find?_some hfind
    unfold interestAccept at hacc
    rw [Bool.and_eq_true, Bool.not_eq_true', Bool.not_eq_true'] at hacc
    refine .inr ⟨?_, hacc.2⟩
    intro hmem
    have hdec := hacc.1
    rw [decide_eq_false_iff_not] at hdec
    exact hdec hmem

/-- What is true of every flight the filler generator can append: its route is
uncovered (in particular it is not an `FCO → asia` route), it carries the
assigned id, and it is either a fallback record with a non-preferred carrier
or a candidate the Guard accepted. -/
theorem fillerOk_elim {prev : List Flight} {f : Flight} {k : ℕ}
    (h : FillerOk prev f k) :
    ¬(f.origin = "FCO" ∧ f.destination ∈ ASIAN_AIRPORTS) ∧ f.id = k ∧
      (f.airline.code ∉ (["SQ", "LH", "EK"] : List String) ∨
        would_create_unintended_solution f.origin f.destination f.date f.price
          f.airline.code prev = false) := by
  obtain ⟨o, d, _, _, _, hcov, dist, dev, cands, fb, fbv, fbs, hcands, hfb, _, _, heq⟩ := h
  simp only at heq
  subst heq
  refine ⟨?_, rfl, ?_⟩
  · rintro ⟨ho, hd⟩
    simp only at ho hd
    apply hcov
    rw [ho]
    unfold covered_routes
    refine List.mem_append.mpr (.inl (List.mem_append.mpr (.inl ?_)))
    exact List.mem_map.mpr ⟨d, hd, rfl⟩
  · simp only
    unfold chooseCandidate
    rcases hfind : cands.find? (fillerAccept o d prev) with _ | c
    · simp only [Option.getD_none]
      exact .inl (mem_fallback_airlines hfb)
    · simp only [Option.getD_some]
      have hacc : fillerAccept o d prev c = true := List.find?_some hfind
      unfold fillerAccept at hacc
      rw [Bool.not_eq_true'] at hacc
      exact .inr hacc

/-! ### Solution-block lemmas -/

theorem calculate_flight_price_sol (d t v u : ℚ) :
    calculate_flight_price d t v u true = round2 u := by
  simp [calculate_flight_price]

theorem destFlights_origin_dest {s : ℕ} {dst dt : String} {w : DestDraws} {f : Flight}
    (hf : f ∈ destFlights s dst dt w) : f.origin = "FCO" ∧ f.destination = dst := by
  simp only [destFlights, List.mem_cons, List.not_mem_nil, or_false] at hf
  rcases hf with rfl | rfl | rfl | rfl | rfl | rfl | rfl | rfl | rfl | rfl <;> exact ⟨rfl, rfl⟩

theorem destFlights_id_range {s : ℕ} {dst dt : String} {w : DestDraws} {f : Flight}
    (hf : f ∈ destFlights s dst dt w) : s ≤ f.id ∧ f.id ≤ s + 9 := by
  simp only [destFlights, List.mem_cons, List.not_mem_nil, or_false] at hf
  rcases hf with rfl | rfl | rfl | rfl | rfl | rfl | rfl | rfl | rfl | rfl <;> simp

/-- A flight of a designated block that satisfies agent A's budget/airline
constraints and lies in both agents' availability sets is one of the two
shared flights. -/
theorem destFlights_sideA {s : ℕ} {dst dt : String} {w : DestDraws} {f : Flight}
    (hw : DestDrawsOk w) (hf : f ∈ destFlights s dst dt w)
    (hdA : f.date ∈ user_1.available_dates)
    (hdB : f.date ∈ user_2.available_dates)
    (hp : f.price ≤ user_1.max_budget)
    (hc : f.airline.code ∈ user_1.preferred_airlines) :
    f ∈ (destFlights s dst dt w).take 2 := by
  obtain ⟨hda, hdb, h1, h2, hq, he, hd1, hd2, hd3, hd4, h5, h6⟩ := hw
  have h705 : (705 : ℚ) ≤ round2 w.u2_sq_u := by
    have : ((705 : ℤ) : ℚ) ≤ w.u2_sq_u := by push_cast; linarith [hq.1]
    have := le_round2 this
    push_cast at this
    exact this
  have h750 : (750 : ℚ) ≤ round2 (700 + w.d5_u) := by
    have : ((750 : ℤ) : ℚ) ≤ 700 + w.d5_u := by push_cast; linarith [h5.1]
    have := le_round2 this
    push_cast at this
    exact this
  have h815 : (815 : ℚ) ≤ round2 (810 + w.d6_u) := by
    have : ((815 : ℤ) : ℚ) ≤ 810 + w.d6_u := by push_cast; linarith [h6.1]
    have := le_round2 this
    push_cast at this
    exact this
  simp only [user_1, user_2] at hdA hdB hp hc
  simp only [destFlights, List.mem_cons, List.not_mem_nil, or_false] at hf
  rcases hf with rfl | rfl | rfl | rfl | rfl | rfl | rfl | rfl | rfl | rfl
  · simp [destFlights]
  · simp [destFlights]
  · exfalso; simp only [calculate_flight_price_sol] at hp; linarith
  · exfalso; simp [airlineEK] at hc
  · exfalso; simp [airlineAA] at hc
  · exfalso; simp at hdA
  · exfalso; simp at hdB
  · exfalso; simp [airlineEK] at hc
  · exfalso; simp only [] at hp; linarith
  · exfalso; simp only [] at hp; linarith

/-- A flight of a designated block that satisfies agent B's budget/airline
constraints and lies in both agents' availability sets is one of the two
shared flights or the two user-2-only flights. -/
theorem destFlights_sideB {s : ℕ} {dst dt : String} {w : DestDraws} {f : Flight}
    (hw : DestDrawsOk w) (hf : f ∈ destFlights s dst dt w)
    (hdA : f.date ∈ user_1.available_dates)
    (hdB : f.date ∈ user_2.available_dates)
    (hp : f.price ≤ user_2.max_budget)
    (hc : f.airline.code ∈ user_2.preferred_airlines) :
    f ∈ (destFlights s dst dt w).take 4 := by
  obtain ⟨hda, hdb, h1, h2, hq, he, hd1, hd2, hd3, hd4, h5, h6⟩ := hw
  have h815 : (815 : ℚ) ≤ round2 (810 + w.d6_u) := by
    have : ((815 : ℤ) : ℚ) ≤ 810 + w.d6_u := by push_cast; linarith [h6.1]
    have := le_round2 this
    push_cast at this
    exact this
  simp only [user_1, user_2] at hdA hdB hp hc
  simp only [destFlights, List.mem_cons, List.not_mem_nil, or_false] at hf
  rcases hf with rfl | rfl | rfl | rfl | rfl | rfl | rfl | rfl | rfl | rfl
  · simp [destFlights]
  · simp [destFlights]
  · simp [destFlights]
  · simp [destFlights]
  · exfalso; simp [airlineAA] at hc
  · exfalso; simp at hdA
  · exfalso; simp [airlineLH] at hc
  · exfalso; simp at hdA
  · exfalso; simp [airlineLH] at hc
  · exfalso; simp only [] at hp; linarith

theorem mem_take2_fields {s : ℕ} {dst dt : String} {w : DestDraws} {f : Flight}
    (hf : f ∈ (destFlights s dst dt w).take 2) :
    f.date = dt ∧ f.destination = dst ∧ (f.id = s ∨ f.id = s + 1) := by
  simp only [destFlights, List.take_cons_succ, List.take_zero, List.mem_cons,
    List.not_mem_nil, or_false] at hf
  rcases hf with rfl | rfl <;> simp

theorem mem_take4_fields {s : ℕ} {dst dt : String} {w : DestDraws} {f : Flight}
    (hf : f ∈ (destFlights s dst dt w).take 4) :
    f.date = dt ∧ f.destination = dst ∧
      (f.id = s ∨ f.id = s + 1 ∨ f.id = s + 2 ∨ f.id = s + 3) := by
  simp only [destFlights, List.take_cons_succ, List.take_zero, List.mem_cons,
    List.not_mem_nil, or_false] at hf
  rcases hf with rfl | rfl | rfl | rfl <;> simp

theorem mem_take2_take4 {s : ℕ} {dst dt : String} {w : DestDraws} {f : Flight}
    (hf : f ∈ (destFlights s dst dt w).take 2) : f ∈ (destFlights s dst dt w).take 4 := by
  simp only [destFlights, List.take_cons_succ, List.take_zero, List.mem_cons,
    List.not_mem_nil, or_false] at hf ⊢
  tauto

theorem memS_cases {w : SolDraws} {f : Flight} (hf : f ∈ generate_solution_flights w) :
    f ∈ destFlights 1 "SIN" "2025-07-17" w.dSIN ∨
    f ∈ destFlights 11 "BKK" "2025-07-18" w.dBKK ∨
    f ∈ destFlights 21 "DEL" "2025-07-19" w.dDEL := by
  rcases List.mem_append.mp hf with h | h
  · rcases List.mem_append.mp h with h' | h'
    · exact .inl h'
    · exact .inr (.inl h')
  · exact .inr (.inr h)

theorem interest_id_lb {interest : List Flight} (h : GenChain InterestOk 31 interest)
    {f : Flight} (hf : f ∈ interest) : 31 ≤ f.id := by
  obtain ⟨pre, _, hok⟩ := genChain_mem h hf
  rw [interestOk_id hok]
  omega

theorem filler_id_lb {n : ℕ} {filler : List Flight} (h : GenChain FillerOk (31 + n) filler)
    {f : Flight} (hf : f ∈ filler) : 31 ≤ f.id := by
  obtain ⟨pre, _, hok⟩ := genChain_mem h hf
  rw [fillerOk_id hok]
  omega

/-- No valid rendezvous pair can be formed from two flights produced by one
rejection-sampling loop, whatever the order: the later of the two is either a
fallback with a carrier outside both preference sets, or a candidate the Guard
checked against a prefix containing the earlier one. -/
theorem no_pair_same_chain {l : List Flight}
    (hstep : ∀ pre x suf, l = pre ++ x :: suf →
      (x.airline.code ∉ (["SQ", "LH", "EK"] : List String) ∨
        would_create_unintended_solution x.origin x.destination x.date x.price
          x.airline.code pre = false))
    {f1 f2 : Flight} (m1 : f1 ∈ l) (m2 : f2 ∈ l) (hne : f1 ≠ f2)
    (ho1 : f1.origin = "FCO") (ho2 : f2.origin = "FCO")
    (hdest : f1.destination = f2.destination)
    (hdate : f1.date = f2.date)
    (hdA : f1.date ∈ user_1.available_dates) (hdB : f1.date ∈ user_2.available_dates)
    (hpA : f1.price ≤ user_1.max_budget) (hpB : f2.price ≤ user_2.max_budget)
    (hcA : f1.airline.code ∈ user_1.preferred_airlines)
    (hcB : f2.airline.code ∈ user_2.preferred_airlines) : False := by
  obtain ⟨pre, x, suf, heq, hcase⟩ := two_mem_split m1 m2 hne
  rcases hcase with ⟨hx, hg⟩ | ⟨hx, hg⟩ <;> subst hx
  · rcases hstep pre x suf heq with hfall | hguard
    · simp only [user_1] at hcA
      simp only [List.mem_cons, List.not_mem_nil, or_false] at hcA
      rcases hcA with hc | hc <;> simp [hc] at hfall
    · rw [ho1] at hguard
      rw [Bool.eq_false_iff] at hguard
      apply hguard
      rw [would_create_FCO_iff]
      refine .inl ⟨⟨hdA, hpA, hcA⟩, f2, hg, ?_, hdest.symm, hdate.symm, hpB, hcB, hdB⟩
      exact ho2
  · rcases hstep pre x suf heq with hfall | hguard
    · simp only [user_2] at hcB
      simp only [List.mem_cons, List.not_mem_nil, or_false] at hcB
      rcases hcB with hc | hc <;> simp [hc] at hfall
    · rw [ho2] at hguard
      rw [Bool.eq_false_iff] at hguard
      apply hguard
      rw [would_create_FCO_iff]
      have hdB' : x.date ∈ user_2.available_dates := hdate ▸ hdB
      have hdA' : x.date ∈ user_1.available_dates := hdate ▸ hdA
      refine .inr (.inl ⟨⟨hdB', hpB, hcB⟩, f1, hg, ?_, hdest, hdate, hpA, hcA, hdA'⟩)
      exact ho1

/-- Where a catalog flight that is agent-B-valid at a designated
destination/date can live: in the `take 4` prefix of that destination's
synthesized block. -/
theorem char_f2_block {w : SolDraws} {interest filler : List Flight}
    (hw : SolDrawsOk w)
    (hI : GenChain InterestOk 31 interest)
    (hF : GenChain FillerOk (31 + interest.length) filler)
    {f2 : Flight}
    (h2 : f2 ∈ generate_solution_flights w ++ interest ++ filler)
    (ho2 : f2.origin = "FCO")
    {s : ℕ} {dst dt : String} {wd : DestDraws} (hwd : DestDrawsOk wd)
    (hsel : (s = 1 ∧ dst = "SIN" ∧ dt = "2025-07-17" ∧ wd = w.dSIN) ∨
            (s = 11 ∧ dst = "BKK" ∧ dt = "2025-07-18" ∧ wd = w.dBKK) ∨
            (s = 21 ∧ dst = "DEL" ∧ dt = "2025-07-19" ∧ wd = w.dDEL))
    (hdst : f2.destination = dst) (hdt : f2.date = dt)
    (hdA2 : f2.date ∈ user_1.available_dates) (hdB2 : f2.date ∈ user_2.available_dates)
    (hpB : f2.price ≤ user_2.max_budget)
    (hcB : f2.airline.code ∈ user_2.preferred_airlines) :
    f2 ∈ (destFlights s dst dt wd).take 4 := by
  rcases hsel with ⟨rfl, rfl, rfl, rfl⟩ | ⟨rfl, rfl, rfl, rfl⟩ | ⟨rfl, rfl, rfl, rfl⟩ <;>
  · rcases List.mem_append.mp h2 with h2' | hFm
    · rcases List.mem_append.mp h2' with hS | hIm
      · rcases memS_cases hS with hb | hb | hb <;>
          first
            | exact destFlights_sideB hwd hb hdA2 hdB2 hpB hcB
            | (exfalso
               have hdd := (destFlights_origin_dest hb).2
               rw [hdd] at hdst
               exact absurd hdst (by decide))
      · exfalso
        obtain ⟨pre, _, hok⟩ := genChain_mem hI hIm
        obtain ⟨_, _, _, hdich⟩ := interestOk_elim hok
        rcases hdich with hfall | ⟨hnd, _⟩
        · simp only [user_2] at hcB
          simp only [List.mem_cons, List.not_mem_nil, or_false] at hcB
          rcases hcB with hc | hc <;> simp [hc] at hfall
        · rw [hdst] at hnd
          exact hnd (by rw [hdt]; decide)
    · exfalso
      obtain ⟨pre, _, hok⟩ := genChain_mem hF hFm
      exact (fillerOk_elim hok).1 ⟨ho2, by rw [hdst]; decide⟩

/-- Characterization of all valid ordered pairs of a generated catalog: the
agent-A flight is one of the two shared flights of a designated block, and the
agent-B flight is one of the first four flights of the same block. -/
theorem pair_characterization {w : SolDraws} {interest filler : List Flight}
    (hw : SolDrawsOk w)
    (hI : GenChain InterestOk 31 interest)
    (hF : GenChain FillerOk (31 + interest.length) filler)
    {f1 f2 : Flight}
    (h1 : f1 ∈ generate_solution_flights w ++ interest ++ filler)
    (h2 : f2 ∈ generate_solution_flights w ++ interest ++ filler)
    (ho1 : f1.origin = "FCO") (ho2 : f2.origin = "FCO")
    (hdest : f1.destination = f2.destination)
    (hid : f1.id ≠ f2.id)
    (hv : is_valid_solution f1 f2 user_1 user_2 = true) :
    (f1 ∈ (destFlights 1 "SIN" "2025-07-17" w.dSIN).take 2 ∧
      f2 ∈ (destFlights 1 "SIN" "2025-07-17" w.dSIN).take 4) ∨
    (f1 ∈ (destFlights 11 "BKK" "2025-07-18" w.dBKK).take 2 ∧
      f2 ∈ (destFlights 11 "BKK" "2025-07-18" w.dBKK).take 4) ∨
    (f1 ∈ (destFlights 21 "DEL" "2025-07-19" w.dDEL).take 2 ∧
      f2 ∈ (destFlights 21 "DEL" "2025-07-19" w.dDEL).take 4) := by
  rw [is_valid_solution_iff] at hv
  obtain ⟨hdate, hdA, hdB, hpA, hpB, hcA, hcB⟩ := hv
  have hdA2 : f2.date ∈ user_1.available_dates := hdate ▸ hdA
  have hdB2 : f2.date ∈ user_2.available_dates := hdate ▸ hdB
  have hne : f1 ≠ f2 := fun he => hid (he ▸ rfl)
  rcases List.mem_append.mp h1 with h1' | hFm1
  rcases List.mem_append.mp h1' with hS1 | hIm1
  · -- f1 among the synthesized solution flights
    rcases memS_cases hS1 with hb | hb | hb
    · have ht2 := destFlights_sideA hw.1 hb hdA hdB hpA hcA
      obtain ⟨hf1dt, hf1dst, _⟩ := mem_take2_fields ht2
      have hdst2 : f2.destination = "SIN" := by rw [← hdest, hf1dst]
      have hdt2 : f2.date = "2025-07-17" := by rw [← hdate, hf1dt]
      exact .inl ⟨ht2, char_f2_block hw hI hF h2 ho2 hw.1
        (.inl ⟨rfl, rfl, rfl, rfl⟩) hdst2 hdt2 hdA2 hdB2 hpB hcB⟩
    · have ht2 := destFlights_sideA hw.2.1 hb hdA hdB hpA hcA
      obtain ⟨hf1dt, hf1dst, _⟩ := mem_take2_fields ht2
      have hdst2 : f2.destination = "BKK" := by rw [← hdest, hf1dst]
      have hdt2 : f2.date = "2025-07-18" := by rw [← hdate, hf1dt]
      exact .inr (.inl ⟨ht2, char_f2_block hw hI hF h2 ho2 hw.2.1
        (.inr (.inl ⟨rfl, rfl, rfl, rfl⟩)) hdst2 hdt2 hdA2 hdB2 hpB hcB⟩)
    · have ht2 := destFlights_sideA hw.2.2 hb hdA hdB hpA hcA
      obtain ⟨hf1dt, hf1dst, _⟩ := mem_take2_fields ht2
      have hdst2 : f2.destination = "DEL" := by rw [← hdest, hf1dst]
      have hdt2 : f2.date = "2025-07-19" := by rw [← hdate, hf1dt]
      exact .inr (.inr ⟨ht2, char_f2_block hw hI hF h2 ho2 hw.2.2
        (.inr (.inr ⟨rfl, rfl, rfl, rfl⟩)) hdst2 hdt2 hdA2 hdB2 hpB hcB⟩)
  · -- f1 an interest flight
    exfalso
    obtain ⟨pre1, _, hok1⟩ := genChain_mem hI hIm1
    obtain ⟨_, hdas1, _, hdich1⟩ := interestOk_elim hok1
    rcases hdich1 with hfall | ⟨hnd, _⟩
    · simp only [user_1] at hcA
      simp only [List.mem_cons, List.not_mem_nil, or_false] at hcA
      rcases hcA with hc | hc <;> simp [hc] at hfall
    · rcases List.mem_append.mp h2 with h2' | hFm2
      · rcases List.mem_append.mp h2' with hS2 | hIm2
        · rcases memS_cases hS2 with hb | hb | hb <;>
          · first
              | (have ht4 := destFlights_sideB hw.1 hb hdA2 hdB2 hpB hcB)
              | (have ht4 := destFlights_sideB hw.2.1 hb hdA2 hdB2 hpB hcB)
              | (have ht4 := destFlights_sideB hw.2.2 hb hdA2 hdB2 hpB hcB)
            obtain ⟨hf2dt, hf2dst, _⟩ := mem_take4_fields ht4
            rw [show f1.destination = f2.destination from hdest, hf2dst] at hnd
            exact hnd (by rw [hdate, hf2dt]; decide)
        · refine no_pair_same_chain ?_ hIm1 hIm2 hne ho1 ho2 hdest hdate hdA hdB hpA hpB hcA hcB
          intro pre x suf heq
          have hel := interestOk_elim (genChain_decomp hI pre x suf heq)
          rcases hel.2.2.2 with hc | hc
          · exact .inl hc
          · rw [hel.1]
            exact .inr hc.2
      · obtain ⟨pre2, _, hok2⟩ := genChain_mem hF hFm2
        exact (fillerOk_elim hok2).1 ⟨ho2, by rw [← hdest]; exact hdas1⟩
  · -- f1 a filler flight
    exfalso
    obtain ⟨pre1, _, hok1⟩ := genChain_mem hF hFm1
    have hnotasia : f1.destination ∉ ASIAN_AIRPORTS :=
      fun h => (fillerOk_elim hok1).1 ⟨ho1, h⟩
    rcases List.mem_append.mp h2 with h2' | hFm2
    · rcases List.mem_append.mp h2' with hS2 | hIm2
      · rcases memS_cases hS2 with hb | hb | hb <;>
        · have hdd := (destFlights_origin_dest hb).2
          rw [hdest, hdd] at hnotasia
          exact hnotasia (by decide)
      · obtain ⟨pre2, _, hok2⟩ := genChain_mem hI hIm2
        obtain ⟨_, hdas2, _, _⟩ := interestOk_elim hok2
        rw [hdest] at hnotasia
        exact hnotasia hdas2
    · refine no_pair_same_chain ?_ hFm1 hFm2 hne ho1 ho2 hdest hdate hdA hdB hpA hpB hcA hcB
      intro pre x suf heq
      have hel := fillerOk_elim (genChain_decomp hF pre x suf heq)
      exact hel.2.2

/-! ### Counting infrastructure -/

theorem countP_flatMap {α β : Type} (l : List α) (f : α → List β) (p : β → Bool) :
    (l.flatMap f).countP p = (l.map (fun a => (f a).countP p)).sum := by
  induction l with
  | nil => rfl
  | cons a t ih => simp [List.countP_append, ih]

theorem mem_filter_byDest {l : List Flight} {d : String} {f : Flight}
    (hf : f ∈ l.filter (byDest d)) : f ∈ l ∧ f.origin = "FCO" ∧ f.destination = d := by
  have h := List.mem_filter.mp hf
  have h2 := h.2
  simp only [byDest, Bool.and_eq_true, decide_eq_true_eq] at h2
  exact ⟨h.1, h2.1, h2.2⟩

/-- `find_solutions` at the reference profiles, with both (identical) origin
filters written through `byDest`. -/
theorem find_solutions_eq (flights : List Flight) :
    find_solutions flights user_1 user_2 =
      (firstDedup (flights.map (·.destination))).flatMap (fun destination =>
        (flights.filter (byDest destination)).flatMap (fun flight_1 =>
          ((flights.filter (byDest destination)).filter (fun flight_2 =>
              decide (flight_1.id ≠ flight_2.id) &&
              is_valid_solution flight_1 flight_2 user_1 user_2)).map (fun flight_2 =>
            { destination := destination
              date := flight_1.date
              user_1_flight := ⟨flight_1.id, flight_1.price, flight_1.airline.code, flight_1.duration⟩
              user_2_flight := ⟨flight_2.id, flight_2.price, flight_2.airline.code,
                flight_2.duration⟩ }))) := rfl

theorem find_solutions_length (flights : List Flight) :
    (find_solutions flights user_1 user_2).length =
      ((firstDedup (flights.map (·.destination))).map (fun d =>
        ((flights.filter (byDest d)).map (fun f1 =>
          (flights.filter (byDest d)).countP (fun f2 =>
            decide (f1.id ≠ f2.id) && is_valid_solution f1 f2 user_1 user_2))).sum)).sum := by
  rw [find_solutions_eq, List.length_flatMap]
  congr 1
  refine List.map_congr_left (fun d hd => ?_)
  simp only [Function.comp_apply]
  rw [List.length_flatMap]
  congr 1
  refine List.map_congr_left (fun f1 hf1 => ?_)
  simp only [Function.comp_apply]
  rw [List.length_map]
  exact (List.countP_eq_length_filter _ _).symm

theorem sum_indicator_one {l : List String} (hnd : l.Nodup) {x : String} (hx : x ∈ l)
    {g : String → ℕ} {k : ℕ} (hg : ∀ d ∈ l, g d = if d = x then k else 0) :
    (l.map g).sum = k := by
  have hperm : l.Perm (x :: l.erase x) := List.perm_cons_erase hx
  rw [((hperm.map g)).sum_eq]
  simp only [List.map_cons, List.sum_cons]
  have hx0 : g x = k := by rw [hg x hx]; simp
  have hrest : ((l.erase x).map g).sum = 0 := by
    apply List.sum_eq_zero
    intro n hn
    obtain ⟨y, hy, rfl⟩ := List.mem_map.mp hn
    obtain ⟨hyx, hyl⟩ := (List.Nodup.mem_erase_iff hnd).mp hy
    rw [hg y hyl]
    simp [hyx]
  rw [hx0, hrest]
  omega

theorem sum_indicator_three {l : List String} (hnd : l.Nodup)
    {x y z : String} (hx : x ∈ l) (hy : y ∈ l) (hz : z ∈ l)
    (hxy : x ≠ y) (hxz : x ≠ z) (hyz : y ≠ z)
    {g : String → ℕ} {k : ℕ}
    (hg : ∀ d ∈ l, g d = if d = x ∨ d = y ∨ d = z then k else 0) :
    (l.map g).sum = 3 * k := by
  have hnd1 : (l.erase x).Nodup := hnd.erase x
  have hnd2 : ((l.erase x).erase y).Nodup := hnd1.erase y
  have hy1 : y ∈ l.erase x := (List.Nodup.mem_erase_iff hnd).mpr ⟨hxy.symm, hy⟩
  have hz1 : z ∈ l.erase x := (List.Nodup.mem_erase_iff hnd).mpr ⟨hxz.symm, hz⟩
  have hz2 : z ∈ (l.erase x).erase y := (List.Nodup.mem_erase_iff hnd1).mpr ⟨hyz.symm, hz1⟩
  have p1 : l.Perm (x :: l.erase x) := List.perm_cons_erase hx
  have p2 : (l.erase x).Perm (y :: (l.erase x).erase y) := List.perm_cons_erase hy1
  have p3 : ((l.erase x).erase y).Perm (z :: ((l.erase x).erase y).erase z) :=
    List.perm_cons_erase hz2
  have pp : l.Perm (x :: y :: z :: ((l.erase x).erase y).erase z) :=
    p1.trans ((p2.trans (p3.cons y)).cons x)
  rw [((pp.map g)).sum_eq]
  simp only [List.map_cons, List.sum_cons]
  have hgx : g x = k := by rw [hg x hx]; simp
  have hgy : g y = k := by rw [hg y hy]; simp
  have hgz : g z = k := by rw [hg z hz]; simp
  have hrest : ((((l.erase x).erase y).erase z).map g).sum = 0 := by
    apply List.sum_eq_zero
    intro n hn
    obtain ⟨d, hd, rfl⟩ := List.mem_map.mp hn
    obtain ⟨hdz, hd2⟩ := (List.Nodup.mem_erase_iff hnd2).mp hd
    obtain ⟨hdy, hd1⟩ := (List.Nodup.mem_erase_iff hnd1).mp hd2
    obtain ⟨hdx, hdl⟩ := (List.Nodup.mem_erase_iff hnd).mp hd1
    rw [hg d hdl]
    simp [hdx, hdy, hdz]
  rw [hgx, hgy, hgz, hrest]
  ring

theorem overlap_of_both {dt : String} (h1 : dt ∈ user_1.available_dates)
    (h2 : dt ∈ user_2.available_dates) :
    dt = "2025-07-17" ∨ dt = "2025-07-18" ∨ dt = "2025-07-19" := by
  simp only [user_1, List.mem_cons, List.not_mem_nil, or_false] at h1
  simp only [user_2, List.mem_cons, List.not_mem_nil, or_false] at h2
  rcases h1 with rfl | rfl | rfl | rfl | rfl <;> simp_all

/-- The ordered-pair count among the 10 flights of one designated block is
exactly 6 = |A|·|B| − |A∩B| = 2·4 − 2. -/
theorem block_pair_sum {s : ℕ} {dst dt : String} {w : DestDraws}
    (hw : DestDrawsOk w)
    (hdtA : dt ∈ user_1.available_dates) (hdtB : dt ∈ user_2.available_dates) :
    ((destFlights s dst dt w).map (fun f1 =>
      (destFlights s dst dt w).countP (fun f2 =>
        decide (f1.id ≠ f2.id) && is_valid_solution f1 f2 user_1 user_2))).sum = 6 := by
  obtain ⟨hda, hdb, h1, h2, hq, he, hd1, hd2, hd3, hd4, h5, h6⟩ := hw
  have a0_700 : round2 w.shared_u1 ≤ 700 := by
    have h : w.shared_u1 ≤ ((700 : ℤ) : ℚ) := by push_cast; linarith [h1.2]
    have := round2_le h; push_cast at this; linarith
  have a0_810 : round2 w.shared_u1 ≤ 810 := by
    have h : w.shared_u1 ≤ ((810 : ℤ) : ℚ) := by push_cast; linarith [h1.2]
    have := round2_le h; push_cast at this; linarith
  have a1_700 : round2 w.shared_u2 ≤ 700 := by
    have h : w.shared_u2 ≤ ((700 : ℤ) : ℚ) := by push_cast; linarith [h2.2]
    have := round2_le h; push_cast at this; linarith
  have a1_810 : round2 w.shared_u2 ≤ 810 := by
    have h : w.shared_u2 ≤ ((810 : ℤ) : ℚ) := by push_cast; linarith [h2.2]
    have := round2_le h; push_cast at this; linarith
  have q_not700 : ¬ round2 w.u2_sq_u ≤ 700 := by
    have h : ((705 : ℤ) : ℚ) ≤ w.u2_sq_u := by push_cast; linarith [hq.1]
    have := le_round2 h; push_cast at this; linarith
  have q_810 : round2 w.u2_sq_u ≤ 810 := by
    have h800 : w.u2_sq_u ≤ 700 + 100 := le_trans hq.2 (min_le_right _ _)
    have h : w.u2_sq_u ≤ ((810 : ℤ) : ℚ) := by push_cast; linarith
    have := round2_le h; push_cast at this; linarith
  have e_700 : round2 w.u2_ek_u ≤ 700 := by
    have h : w.u2_ek_u ≤ ((700 : ℤ) : ℚ) := by push_cast; linarith [he.2]
    have := round2_le h; push_cast at this; linarith
  have e_810 : round2 w.u2_ek_u ≤ 810 := by
    have h : w.u2_ek_u ≤ ((810 : ℤ) : ℚ) := by push_cast; linarith [he.2]
    have := round2_le h; push_cast at this; linarith
  have d5not : ¬ round2 (700 + w.d5_u) ≤ 700 := by
    have h : ((750 : ℤ) : ℚ) ≤ 700 + w.d5_u := by push_cast; linarith [h5.1]
    have := le_round2 h; push_cast at this; linarith
  have d6not7 : ¬ round2 (810 + w.d6_u) ≤ 700 := by
    have h : ((815 : ℤ) : ℚ) ≤ 810 + w.d6_u := by push_cast; linarith [h6.1]
    have := le_round2 h; push_cast at this; linarith
  have d6not8 : ¬ round2 (810 + w.d6_u) ≤ 810 := by
    have h : ((815 : ℤ) : ℚ) ≤ 810 + w.d6_u := by push_cast; linarith [h6.1]
    have := le_round2 h; push_cast at this; linarith
  have i01 : s ≠ s + 1 := by omega
  have i02 : s ≠ s + 2 := by omega
  have i03 : s ≠ s + 3 := by omega
  have i10 : s + 1 ≠ s := by omega
  have i12 : s + 1 ≠ s + 2 := by omega
  have i13 : s + 1 ≠ s + 3 := by omega
  rcases overlap_of_both hdtA hdtB with rfl | rfl | rfl <;>
  · simp [destFlights, calculate_flight_price_sol, List.countP_cons, is_valid_solution,
      user_1, user_2, airlineSQ, airlineEK, airlineLH, airlineAA,
      a0_700, a0_810, a1_700, a1_810, q_not700, q_810, e_700, e_810,
      d5not, d6not7, d6not8, i01, i02, i03, i10, i12, i13]

theorem filter_byDest_self (s : ℕ) (dst dt : String) (w : DestDraws) :
    (destFlights s dst dt w).filter (byDest dst) = destFlights s dst dt w := by
  apply List.filter_eq_self.mpr
  intro f hf
  obtain ⟨ho, hd⟩ := destFlights_origin_dest hf
  simp [byDest, ho, hd]

theorem filter_byDest_other {s : ℕ} {dst dt : String} {w : DestDraws} {d : String}
    (hne : dst ≠ d) :
    (destFlights s dst dt w).filter (byDest d) = [] := by
  rw [List.filter_eq_nil_iff]
  intro f hf
  obtain ⟨ho, hd⟩ := destFlights_origin_dest hf
  simp [byDest, ho, hd, hne]

/-- A flight with id ≥ 31 (an interest or filler flight) never occurs as the
agent-A side of a valid pair over a generated catalog. -/
theorem cnt_zero_high_id {w : SolDraws} {interest filler : List Flight}
    (hw : SolDrawsOk w) (hI : GenChain InterestOk 31 interest)
    (hF : GenChain FillerOk (31 + interest.length) filler)
    {f1 : Flight}
    (hm1 : f1 ∈ generate_solution_flights w ++ interest ++ filler)
    (h31 : 31 ≤ f1.id) (ho1 : f1.origin = "FCO") {d : String} (hd1 : f1.destination = d)
    {L : List Flight}
    (hL : ∀ f2 ∈ L, f2 ∈ generate_solution_flights w ++ interest ++ filler ∧
        f2.origin = "FCO" ∧ f2.destination = d) :
    L.countP (fun f2 =>
      decide (f1.id ≠ f2.id) && is_valid_solution f1 f2 user_1 user_2) = 0 := by
  apply List.countP_eq_zero.mpr
  intro f2 hf2
  obtain ⟨hm2, ho2, hd2⟩ := hL f2 hf2
  intro hpred
  rw [Bool.and_eq_true, decide_eq_true_eq] at hpred
  obtain ⟨hid, hv⟩ := hpred
  have hchar := pair_characterization hw hI hF hm1 hm2 ho1 ho2 (by rw [hd1, hd2]) hid hv
  rcases hchar with ⟨ht2, _⟩ | ⟨ht2, _⟩ | ⟨ht2, _⟩ <;>
  · obtain ⟨_, _, hidv⟩ := mem_take2_fields ht2
    rcases hidv with h | h <;> omega

/-- Flights with id ≥ 31 never occur as the agent-B side of a valid pair over
a generated catalog. -/
theorem cnt_zero_high_id_right {w : SolDraws} {interest filler : List Flight}
    (hw : SolDrawsOk w) (hI : GenChain InterestOk 31 interest)
    (hF : GenChain FillerOk (31 + interest.length) filler)
    {f1 : Flight}
    (hm1 : f1 ∈ generate_solution_flights w ++ interest ++ filler)
    (ho1 : f1.origin = "FCO") {d : String} (hd1 : f1.destination = d)
    {L : List Flight}
    (hL : ∀ f2 ∈ L, f2 ∈ generate_solution_flights w ++ interest ++ filler ∧
        f2.origin = "FCO" ∧ f2.destination = d ∧ 31 ≤ f2.id) :
    L.countP (fun f2 =>
      decide (f1.id ≠ f2.id) && is_valid_solution f1 f2 user_1 user_2) = 0 := by
  apply List.countP_eq_zero.mpr
  intro f2 hf2
  obtain ⟨hm2, ho2, hd2, h31⟩ := hL f2 hf2
  intro hpred
  rw [Bool.and_eq_true, decide_eq_true_eq] at hpred
  obtain ⟨hid, hv⟩ := hpred
  have hchar := pair_characterization hw hI hF hm1 hm2 ho1 ho2 (by rw [hd1, hd2]) hid hv
  rcases hchar with ⟨_, ht4⟩ | ⟨_, ht4⟩ | ⟨_, ht4⟩ <;>
  · obtain ⟨_, _, hidv⟩ := mem_take4_fields ht4
    rcases hidv with h | h | h | h <;> omega

/-- The Solver's per-destination contribution at a designated destination of a
generated catalog is exactly 6. -/
theorem inner_sum_designated {w : SolDraws} {interest filler : List Flight}
    (hw : SolDrawsOk w) (hI : GenChain InterestOk 31 interest)
    (hF : GenChain FillerOk (31 + interest.length) filler)
    {s : ℕ} {dst dt : String} {wd : DestDraws} (hwd : DestDrawsOk wd)
    (hsel : (s = 1 ∧ dst = "SIN" ∧ dt = "2025-07-17" ∧ wd = w.dSIN) ∨
            (s = 11 ∧ dst = "BKK" ∧ dt = "2025-07-18" ∧ wd = w.dBKK) ∨
            (s = 21 ∧ dst = "DEL" ∧ dt = "2025-07-19" ∧ wd = w.dDEL)) :
    (((generate_solution_flights w ++ interest ++ filler).filter (byDest dst)).map (fun f1 =>
      ((generate_solution_flights w ++ interest ++ filler).filter (byDest dst)).countP
        (fun f2 =>
          decide (f1.id ≠ f2.id) && is_valid_solution f1 f2 user_1 user_2))).sum = 6 := by
  have hdecomp : (generate_solution_flights w).filter (byDest dst) = destFlights s dst dt wd := by
    rcases hsel with ⟨rfl, rfl, rfl, rfl⟩ | ⟨rfl, rfl, rfl, rfl⟩ | ⟨rfl, rfl, rfl, rfl⟩ <;>
    · rw [generate_solution_flights, List.filter_append, List.filter_append]
      rw [filter_byDest_self, filter_byDest_other (by decide), filter_byDest_other (by decide)]
      simp
  have hdtA : dt ∈ user_1.available_dates := by
    rcases hsel with ⟨_, _, rfl, _⟩ | ⟨_, _, rfl, _⟩ | ⟨_, _, rfl, _⟩ <;> decide
  have hdtB : dt ∈ user_2.available_dates := by
    rcases hsel with ⟨_, _, rfl, _⟩ | ⟨_, _, rfl, _⟩ | ⟨_, _, rfl, _⟩ <;> decide
  have hfull : (generate_solution_flights w ++ interest ++ filler).filter (byDest dst) =
      destFlights s dst dt wd ++
        (interest.filter (byDest dst) ++ filler.filter (byDest dst)) := by
    rw [List.filter_append, List.filter_append, hdecomp, List.append_assoc]
  have hmemL : ∀ f2 ∈ destFlights s dst dt wd ++
      (interest.filter (byDest dst) ++ filler.filter (byDest dst)),
      f2 ∈ generate_solution_flights w ++ interest ++ filler ∧
        f2.origin = "FCO" ∧ f2.destination = dst := by
    intro f2 hf2
    rw [← hfull] at hf2
    exact mem_filter_byDest hf2
  rw [hfull]
  rw [List.map_append, List.sum_append, List.map_append, List.sum_append]
  have hIf0 : ((interest.filter (byDest dst)).map (fun f1 =>
      (destFlights s dst dt wd ++
        (interest.filter (byDest dst) ++ filler.filter (byDest dst))).countP
        (fun f2 =>
          decide (f1.id ≠ f2.id) && is_valid_solution f1 f2 user_1 user_2))).sum = 0 := by
    apply List.sum_eq_zero
    intro n hn
    obtain ⟨f1, hf1, rfl⟩ := List.mem_map.mp hn
    obtain ⟨hf1I, ho1, hd1⟩ := mem_filter_byDest hf1
    exact cnt_zero_high_id hw hI hF
      (List.mem_append.mpr (.inl (List.mem_append.mpr (.inr hf1I))))
      (interest_id_lb hI hf1I) ho1 hd1 hmemL
  have hFf0 : ((filler.filter (byDest dst)).map (fun f1 =>
      (destFlights s dst dt wd ++
        (interest.filter (byDest dst) ++ filler.filter (byDest dst))).countP
        (fun f2 =>
          decide (f1.id ≠ f2.id) && is_valid_solution f1 f2 user_1 user_2))).sum = 0 := by
    apply List.sum_eq_zero
    intro n hn
    obtain ⟨f1, hf1, rfl⟩ := List.mem_map.mp hn
    obtain ⟨hf1F, ho1, hd1⟩ := mem_filter_byDest hf1
    exact cnt_zero_high_id hw hI hF
      (List.mem_append.mpr (.inr hf1F))
      (filler_id_lb hF hf1F) ho1 hd1 hmemL
  have hBsum : ((destFlights s dst dt wd).map (fun f1 =>
      (destFlights s dst dt wd ++
        (interest.filter (byDest dst) ++ filler.filter (byDest dst))).countP
        (fun f2 =>
          decide (f1.id ≠ f2.id) && is_valid_solution f1 f2 user_1 user_2))).sum = 6 := by
    have hcong : ∀ f1 ∈ destFlights s dst dt wd,
        (destFlights s dst dt wd ++
          (interest.filter (byDest dst) ++ filler.filter (byDest dst))).countP
          (fun f2 =>
            decide (f1.id ≠ f2.id) && is_valid_solution f1 f2 user_1 user_2) =
        (destFlights s dst dt wd).countP
          (fun f2 =>
            decide (f1.id ≠ f2.id) && is_valid_solution f1 f2 user_1 user_2) := by
      intro f1 hf1
      obtain ⟨ho1, hd1⟩ := destFlights_origin_dest hf1
      have hm1 : f1 ∈ generate_solution_flights w ++ interest ++ filler := by
        have hfm : f1 ∈ (generate_solution_flights w).filter (byDest dst) := by
          rw [hdecomp]; exact hf1
        exact List.mem_append.mpr
          (.inl (List.mem_append.mpr (.inl (List.mem_filter.mp hfm).1)))
      rw [List.countP_append, List.countP_append]
      have z1 : (interest.filter (byDest dst)).countP (fun f2 =>
          decide (f1.id ≠ f2.id) && is_valid_solution f1 f2 user_1 user_2) = 0 := by
        apply cnt_zero_high_id_right hw hI hF hm1 ho1 hd1
        intro f2 hf2
        obtain ⟨hf2I, ho2, hd2⟩ := mem_filter_byDest hf2
        exact ⟨List.mem_append.mpr (.inl (List.mem_append.mpr (.inr hf2I))), ho2, hd2,
          interest_id_lb hI hf2I⟩
      have z2 : (filler.filter (byDest dst)).countP (fun f2 =>
          decide (f1.id ≠ f2.id) && is_valid_solution f1 f2 user_1 user_2) = 0 := by
        apply cnt_zero_high_id_right hw hI hF hm1 ho1 hd1
        intro f2 hf2
        obtain ⟨hf2F, ho2, hd2⟩ := mem_filter_byDest hf2
        exact ⟨List.mem_append.mpr (.inr hf2F), ho2, hd2, filler_id_lb hF hf2F⟩
      rw [z1, z2]
      omega
    rw [List.map_congr_left hcong]
    exact block_pair_sum hwd hdtA hdtB
  rw [hIf0, hFf0, hBsum]
  omega

/-- The Solver's per-destination contribution at any non-designated
destination of a generated catalog is 0. -/
theorem inner_sum_other {w : SolDraws} {interest filler : List Flight}
    (hw : SolDrawsOk w) (hI : GenChain InterestOk 31 interest)
    (hF : GenChain FillerOk (31 + interest.length) filler)
    {d : String} (hne1 : d ≠ "SIN") (hne2 : d ≠ "BKK") (hne3 : d ≠ "DEL") :
    (((generate_solution_flights w ++ interest ++ filler).filter (byDest d)).map (fun f1 =>
      ((generate_solution_flights w ++ interest ++ filler).filter (byDest d)).countP
        (fun f2 =>
          decide (f1.id ≠ f2.id) && is_valid_solution f1 f2 user_1 user_2))).sum = 0 := by
  apply List.sum_eq_zero
  intro n hn
  obtain ⟨f1, hf1, rfl⟩ := List.mem_map.mp hn
  obtain ⟨hf1C, ho1, hd1⟩ := mem_filter_byDest hf1
  apply List.countP_eq_zero.mpr
  intro f2 hf2
  obtain ⟨hf2C, ho2, hd2⟩ := mem_filter_byDest hf2
  intro hpred
  rw [Bool.and_eq_true, decide_eq_true_eq] at hpred
  obtain ⟨hid, hv⟩ := hpred
  have hchar := pair_characterization hw hI hF hf1C hf2C ho1 ho2 (by rw [hd1, hd2]) hid hv
  rcases hchar with ⟨ht2, _⟩ | ⟨ht2, _⟩ | ⟨ht2, _⟩ <;>
  · obtain ⟨_, hdd, _⟩ := mem_take2_fields ht2
    rw [hdd] at hd1
    simp_all

theorem designated_dest_mem {w : SolDraws} {interest filler : List Flight}
    {s : ℕ} {dst dt : String} {wd : DestDraws}
    (hb : ∀ f ∈ destFlights s dst dt wd, f ∈ generate_solution_flights w) :
    dst ∈ (generate_solution_flights w ++ interest ++ filler).map (fun x => x.destination) := by
  have hne : destFlights s dst dt wd ≠ [] := by simp [destFlights]
  obtain ⟨f, hf⟩ := List.exists_mem_of_ne_nil _ hne
  refine List.mem_map.mpr ⟨f, ?_, (destFlights_origin_dest hf).2⟩
  exact List.mem_append.mpr (.inl (List.mem_append.mpr (.inl (hb f hf))))

theorem memS_of_block1 {w : SolDraws} :
    ∀ f ∈ destFlights 1 "SIN" "2025-07-17" w.dSIN, f ∈ generate_solution_flights w := by
  intro f hf
  exact List.mem_append.mpr (.inl (List.mem_append.mpr (.inl hf)))

theorem memS_of_block2 {w : SolDraws} :
    ∀ f ∈ destFlights 11 "BKK" "2025-07-18" w.dBKK, f ∈ generate_solution_flights w := by
  intro f hf
  exact List.mem_append.mpr (.inl (List.mem_append.mpr (.inr hf)))

theorem memS_of_block3 {w : SolDraws} :
    ∀ f ∈ destFlights 21 "DEL" "2025-07-19" w.dDEL, f ∈ generate_solution_flights w := by
  intro f hf
  exact List.mem_append.mpr (.inr hf)

/-- Over any generated catalog, the Solver finds exactly 18 solutions. -/
theorem generated_solver_length {catalog : List Flight} (h : GeneratedCatalog catalog) :
    (find_solutions catalog user_1 user_2).length = 18 := by
  obtain ⟨w, interest, filler, hw, hI, hF, rfl⟩ := h
  rw [find_solutions_length]
  have hnd := nodup_firstDedup
    ((generate_solution_flights w ++ interest ++ filler).map (fun x => x.destination))
  have hSIN : ("SIN" : String) ∈ firstDedup
      ((generate_solution_flights w ++ interest ++ filler).map (fun x => x.destination)) :=
    mem_firstDedup.mpr (designated_dest_mem memS_of_block1)
  have hBKK : ("BKK" : String) ∈ firstDedup
      ((generate_solution_flights w ++ interest ++ filler).map (fun x => x.destination)) :=
    mem_firstDedup.mpr (designated_dest_mem memS_of_block2)
  have hDEL : ("DEL" : String) ∈ firstDedup
      ((generate_solution_flights w ++ interest ++ filler).map (fun x => x.destination)) :=
    mem_firstDedup.mpr (designated_dest_mem memS_of_block3)
  have h3 := sum_indicator_three hnd hSIN hBKK hDEL (by decide) (by decide) (by decide)
    (g := fun d =>
      (((generate_solution_flights w ++ interest ++ filler).filter (byDest d)).map (fun f1 =>
        ((generate_solution_flights w ++ interest ++ filler).filter (byDest d)).countP
          (fun f2 =>
            decide (f1.id ≠ f2.id) && is_valid_solution f1 f2 user_1 user_2))).sum)
    (k := 6) ?_
  · rw [h3]
  · intro d hd
    by_cases h1 : d = "SIN"
    · subst h1
      rw [if_pos (.inl rfl)]
      exact inner_sum_designated hw hI hF hw.1 (.inl ⟨rfl, rfl, rfl, rfl⟩)
    · by_cases h2 : d = "BKK"
      · subst h2
        rw [if_pos (.inr (.inl rfl))]
        exact inner_sum_designated hw hI hF hw.2.1 (.inr (.inl ⟨rfl, rfl, rfl, rfl⟩))
      · by_cases h3 : d = "DEL"
        · subst h3
          rw [if_pos (.inr (.inr rfl))]
          exact inner_sum_designated hw hI hF hw.2.2 (.inr (.inr ⟨rfl, rfl, rfl, rfl⟩))
        · have hcond : ¬(d = "SIN" ∨ d = "BKK" ∨ d = "DEL") := by
            push_neg
            exact ⟨h1, h2, h3⟩
          rw [if_neg hcond]
          exact inner_sum_other hw hI hF h1 h2 h3

theorem innerList_length (flights : List Flight) (d : String) :
    ((flights.filter (byDest d)).flatMap (fun flight_1 =>
      ((flights.filter (byDest d)).filter (fun flight_2 =>
          decide (flight_1.id ≠ flight_2.id) &&
          is_valid_solution flight_1 flight_2 user_1 user_2)).map (fun flight_2 =>
        ({ destination := d
           date := flight_1.date
           user_1_flight := ⟨flight_1.id, flight_1.price, flight_1.airline.code,
             flight_1.duration⟩
           user_2_flight := ⟨flight_2.id, flight_2.price, flight_2.airline.code,
             flight_2.duration⟩ } : Solution)))).length =
    ((flights.filter (byDest d)).map (fun f1 =>
      (flights.filter (byDest d)).countP (fun f2 =>
        decide (f1.id ≠ f2.id) && is_valid_solution f1 f2 user_1 user_2))).sum := by
  rw [List.length_flatMap]
  congr 1
  refine List.map_congr_left (fun f1 hf1 => ?_)
  simp only [Function.comp_apply]
  rw [List.length_map]
  exact (List.countP_eq_length_filter _ _).symm

theorem innerList_dest (flights : List Flight) (d : String) :
    ∀ sol ∈ (flights.filter (byDest d)).flatMap (fun flight_1 =>
      ((flights.filter (byDest d)).filter (fun flight_2 =>
          decide (flight_1.id ≠ flight_2.id) &&
          is_valid_solution flight_1 flight_2 user_1 user_2)).map (fun flight_2 =>
        ({ destination := d
           date := flight_1.date
           user_1_flight := ⟨flight_1.id, flight_1.price, flight_1.airline.code,
             flight_1.duration⟩
           user_2_flight := ⟨flight_2.id, flight_2.price, flight_2.airline.code,
             flight_2.duration⟩ } : Solution))),
      sol.destination = d := by
  intro sol hsol
  obtain ⟨f1, h1, h2⟩ := List.mem_flatMap.mp hsol
  obtain ⟨f2, _, rfl⟩ := List.mem_map.mp h2
  rfl

/-- Over any generated catalog, the Solver finds exactly 6 solutions at each
designated destination. -/
theorem generated_solver_count_dest {catalog : List Flight} (h : GeneratedCatalog catalog)
    {dst : String} (hsel : dst = "SIN" ∨ dst = "BKK" ∨ dst = "DEL") :
    (find_solutions catalog user_1 user_2).countP
      (fun sol => decide (sol.destination = dst)) = 6 := by
  obtain ⟨w, interest, filler, hw, hI, hF, rfl⟩ := h
  rw [find_solutions_eq, countP_flatMap]
  have hnd := nodup_firstDedup
    ((generate_solution_flights w ++ interest ++ filler).map (fun x => x.destination))
  have hx : dst ∈ firstDedup
      ((generate_solution_flights w ++ interest ++ filler).map (fun x => x.destination)) := by
    rcases hsel with rfl | rfl | rfl
    · exact mem_firstDedup.mpr (designated_dest_mem memS_of_block1)
    · exact mem_firstDedup.mpr (designated_dest_mem memS_of_block2)
    · exact mem_firstDedup.mpr (designated_dest_mem memS_of_block3)
  apply sum_indicator_one hnd hx
  intro d hd
  by_cases he : d = dst
  · subst he
    rw [if_pos rfl]
    rw [List.countP_eq_length.mpr (fun sol hsol => by
      rw [innerList_dest _ d sol hsol]; simp)]
    rw [innerList_length]
    rcases hsel with rfl | rfl | rfl
    · exact inner_sum_designated hw hI hF hw.1 (.inl ⟨rfl, rfl, rfl, rfl⟩)
    · exact inner_sum_designated hw hI hF hw.2.1 (.inr (.inl ⟨rfl, rfl, rfl, rfl⟩))
    · exact inner_sum_designated hw hI hF hw.2.2 (.inr (.inr ⟨rfl, rfl, rfl, rfl⟩))
  · rw [if_neg he]
    apply List.countP_eq_zero.mpr
    intro sol hsol
    have := innerList_dest _ d sol hsol
    simp [this, he]

theorem destDraws_price_facts {w : DestDraws} (hw : DestDrawsOk w) :
    round2 w.shared_u1 ≤ 700 ∧ round2 w.shared_u1 ≤ 810 ∧
    round2 w.shared_u2 ≤ 700 ∧ round2 w.shared_u2 ≤ 810 ∧
    ¬ round2 w.u2_sq_u ≤ 700 ∧ round2 w.u2_sq_u ≤ 810 ∧
    round2 w.u2_ek_u ≤ 700 ∧ round2 w.u2_ek_u ≤ 810 ∧
    ¬ round2 (700 + w.d5_u) ≤ 700 ∧
    ¬ round2 (810 + w.d6_u) ≤ 700 ∧ ¬ round2 (810 + w.d6_u) ≤ 810 := by
  obtain ⟨hda, hdb, h1, h2, hq, he, hd1, hd2, hd3, hd4, h5, h6⟩ := hw
  refine ⟨?_, ?_, ?_, ?_, ?_, ?_, ?_, ?_, ?_, ?_, ?_⟩
  · have h : w.shared_u1 ≤ ((700 : ℤ) : ℚ) := by push_cast; linarith [h1.2]
    have := round2_le h; push_cast at this; linarith
  · have h : w.shared_u1 ≤ ((810 : ℤ) : ℚ) := by push_cast; linarith [h1.2]
    have := round2_le h; push_cast at this; linarith
  · have h : w.shared_u2 ≤ ((700 : ℤ) : ℚ) := by push_cast; linarith [h2.2]
    have := round2_le h; push_cast at this; linarith
  · have h : w.shared_u2 ≤ ((810 : ℤ) : ℚ) := by push_cast; linarith [h2.2]
    have := round2_le h; push_cast at this; linarith
  · have h : ((705 : ℤ) : ℚ) ≤ w.u2_sq_u := by push_cast; linarith [hq.1]
    have := le_round2 h; push_cast at this; linarith
  · have h800 : w.u2_sq_u ≤ 700 + 100 := le_trans hq.2 (min_le_right _ _)
    have h : w.u2_sq_u ≤ ((810 : ℤ) : ℚ) := by push_cast; linarith
    have := round2_le h; push_cast at this; linarith
  · have h : w.u2_ek_u ≤ ((700 : ℤ) : ℚ) := by push_cast; linarith [he.2]
    have := round2_le h; push_cast at this; linarith
  · have h : w.u2_ek_u ≤ ((810 : ℤ) : ℚ) := by push_cast; linarith [he.2]
    have := round2_le h; push_cast at this; linarith
  · have h : ((750 : ℤ) : ℚ) ≤ 700 + w.d5_u := by push_cast; linarith [h5.1]
    have := le_round2 h; push_cast at this; linarith
  · have h : ((815 : ℤ) : ℚ) ≤ 810 + w.d6_u := by push_cast; linarith [h6.1]
    have := le_round2 h; push_cast at this; linarith
  · have h : ((815 : ℤ) : ℚ) ≤ 810 + w.d6_u := by push_cast; linarith [h6.1]
    have := le_round2 h; push_cast at this; linarith

/-- |A| = 2 within one designated block. -/
theorem block_specA_count {s : ℕ} {dst dt : String} {w : DestDraws} (hw : DestDrawsOk w)
    (hdtA : dt ∈ user_1.available_dates) (hdtB : dt ∈ user_2.available_dates) :
    (destFlights s dst dt w).countP (spec_validA dst dt) = 2 := by
  obtain ⟨a07, a08, a17, a18, qn7, q8, e7, e8, d5n, d6n7, d6n8⟩ := destDraws_price_facts hw
  rcases overlap_of_both hdtA hdtB with rfl | rfl | rfl <;>
  · simp [destFlights, spec_validA, calculate_flight_price_sol, List.countP_cons,
      user_1, user_2, airlineSQ, airlineEK, airlineLH, airlineAA,
      a07, a08, a17, a18, qn7, q8, e7, e8, d5n, d6n7, d6n8]

/-- |B| = 4 within one designated block. -/
theorem block_specB_count {s : ℕ} {dst dt : String} {w : DestDraws} (hw : DestDrawsOk w)
    (hdtA : dt ∈ user_1.available_dates) (hdtB : dt ∈ user_2.available_dates) :
    (destFlights s dst dt w).countP (spec_validB dst dt) = 4 := by
  obtain ⟨a07, a08, a17, a18, qn7, q8, e7, e8, d5n, d6n7, d6n8⟩ := destDraws_price_facts hw
  rcases overlap_of_both hdtA hdtB with rfl | rfl | rfl <;>
  · simp [destFlights, spec_validB, calculate_flight_price_sol, List.countP_cons,
      user_1, user_2, airlineSQ, airlineEK, airlineLH, airlineAA,
      a07, a08, a17, a18, qn7, q8, e7, e8, d5n, d6n7, d6n8]

/-- |A ∩ B| = 2 within one designated block. -/
theorem block_specAB_count {s : ℕ} {dst dt : String} {w : DestDraws} (hw : DestDrawsOk w)
    (hdtA : dt ∈ user_1.available_dates) (hdtB : dt ∈ user_2.available_dates) :
    (destFlights s dst dt w).countP
      (fun f => spec_validA dst dt f && spec_validB dst dt f) = 2 := by
  obtain ⟨a07, a08, a17, a18, qn7, q8, e7, e8, d5n, d6n7, d6n8⟩ := destDraws_price_facts hw
  rcases overlap_of_both hdtA hdtB with rfl | rfl | rfl <;>
  · simp [destFlights, spec_validA, spec_validB, calculate_flight_price_sol, List.countP_cons,
      user_1, user_2, airlineSQ, airlineEK, airlineLH, airlineAA,
      a07, a08, a17, a18, qn7, q8, e7, e8, d5n, d6n7, d6n8]

theorem block_specA_other {s : ℕ} {dstb dtb : String} {w : DestDraws} {dst dt : String}
    (hne : dstb ≠ dst) :
    (destFlights s dstb dtb w).countP (spec_validA dst dt) = 0 := by
  apply List.countP_eq_zero.mpr
  intro f hf hp
  simp only [spec_validA, Bool.and_eq_true, decide_eq_true_eq, and_assoc] at hp
  have hd := (destFlights_origin_dest hf).2
  rw [hd] at hp
  exact hne hp.2.1

theorem block_specB_other {s : ℕ} {dstb dtb : String} {w : DestDraws} {dst dt : String}
    (hne : dstb ≠ dst) :
    (destFlights s dstb dtb w).countP (spec_validB dst dt) = 0 := by
  apply List.countP_eq_zero.mpr
  intro f hf hp
  simp only [spec_validB, Bool.and_eq_true, decide_eq_true_eq, and_assoc] at hp
  have hd := (destFlights_origin_dest hf).2
  rw [hd] at hp
  exact hne hp.2.1

theorem block_specAB_other {s : ℕ} {dstb dtb : String} {w : DestDraws} {dst dt : String}
    (hne : dstb ≠ dst) :
    (destFlights s dstb dtb w).countP
      (fun f => spec_validA dst dt f && spec_validB dst dt f) = 0 := by
  apply List.countP_eq_zero.mpr
  intro f hf hp
  rw [Bool.and_eq_true] at hp
  have hp1 := hp.1
  simp only [spec_validA, Bool.and_eq_true, decide_eq_true_eq, and_assoc] at hp1
  have hd := (destFlights_origin_dest hf).2
  rw [hd] at hp1
  exact hne hp1.2.1

theorem interest_not_specA {interest : List Flight} (hI : GenChain InterestOk 31 interest)
    {dst dt : String} (hsd : dt ∈ solution_dates_used "FCO" dst) :
    ∀ f ∈ interest, ¬ spec_validA dst dt f = true := by
  intro f hf hp
  simp only [spec_validA, Bool.and_eq_true, decide_eq_true_eq, and_assoc] at hp
  obtain ⟨ho, hd, hdate, hdA, hpr, hc⟩ := hp
  obtain ⟨pre, _, hok⟩ := genChain_mem hI hf
  obtain ⟨_, _, _, hdich⟩ := interestOk_elim hok
  rcases hdich with hfall | ⟨hnd, _⟩
  · simp only [user_1] at hc
    simp only [List.mem_cons, List.not_mem_nil, or_false] at hc
    rcases hc with hcc | hcc <;> simp [hcc] at hfall
  · rw [hd, hdate] at hnd
    exact hnd hsd

theorem interest_not_specB {interest : List Flight} (hI : GenChain InterestOk 31 interest)
    {dst dt : String} (hsd : dt ∈ solution_dates_used "FCO" dst) :
    ∀ f ∈ interest, ¬ spec_validB dst dt f = true := by
  intro f hf hp
  simp only [spec_validB, Bool.and_eq_true, decide_eq_true_eq, and_assoc] at hp
  obtain ⟨ho, hd, hdate, hdB, hpr, hc⟩ := hp
  obtain ⟨pre, _, hok⟩ := genChain_mem hI hf
  obtain ⟨_, _, _, hdich⟩ := interestOk_elim hok
  rcases hdich with hfall | ⟨hnd, _⟩
  · simp only [user_2] at hc
    simp only [List.mem_cons, List.not_mem_nil, or_false] at hc
    rcases hc with hcc | hcc <;> simp [hcc] at hfall
  · rw [hd, hdate] at hnd
    exact hnd hsd

theorem filler_not_specA {n : ℕ} {filler : List Flight}
    (hF : GenChain FillerOk (31 + n) filler)
    {dst dt : String} (hasia : dst ∈ ASIAN_AIRPORTS) :
    ∀ f ∈ filler, ¬ spec_validA dst dt f = true := by
  intro f hf hp
  simp only [spec_validA, Bool.and_eq_true, decide_eq_true_eq, and_assoc] at hp
  obtain ⟨ho, hd, _⟩ := hp
  obtain ⟨pre, _, hok⟩ := genChain_mem hF hf
  exact (fillerOk_elim hok).1 ⟨by simpa [user_1] using ho, hd ▸ hasia⟩

theorem filler_not_specB {n : ℕ} {filler : List Flight}
    (hF : GenChain FillerOk (31 + n) filler)
    {dst dt : String} (hasia : dst ∈ ASIAN_AIRPORTS) :
    ∀ f ∈ filler, ¬ spec_validB dst dt f = true := by
  intro f hf hp
  simp only [spec_validB, Bool.and_eq_true, decide_eq_true_eq, and_assoc] at hp
  obtain ⟨ho, hd, _⟩ := hp
  obtain ⟨pre, _, hok⟩ := genChain_mem hF hf
  exact (fillerOk_elim hok).1 ⟨by simpa [user_2] using ho, hd ▸ hasia⟩

/-- |A| = 2 over a full generated catalog, per designated destination. -/
theorem generated_specA_count {catalog : List Flight} (h : GeneratedCatalog catalog)
    {dst dt : String}
    (hsel : (dst = "SIN" ∧ dt = "2025-07-17") ∨ (dst = "BKK" ∧ dt = "2025-07-18") ∨
      (dst = "DEL" ∧ dt = "2025-07-19")) :
    catalog.countP (spec_validA dst dt) = 2 := by
  obtain ⟨w, interest, filler, hw, hI, hF, rfl⟩ := h
  rw [List.countP_append, List.countP_append]
  have hIz : interest.countP (spec_validA dst dt) = 0 :=
    List.countP_eq_zero.mpr (interest_not_specA hI
      (by rcases hsel with ⟨rfl, rfl⟩ | ⟨rfl, rfl⟩ | ⟨rfl, rfl⟩ <;> decide))
  have hFz : filler.countP (spec_validA dst dt) = 0 :=
    List.countP_eq_zero.mpr (filler_not_specA hF
      (by rcases hsel with ⟨rfl, rfl⟩ | ⟨rfl, rfl⟩ | ⟨rfl, rfl⟩ <;> decide))
  have hSc : (generate_solution_flights w).countP (spec_validA dst dt) = 2 := by
    rw [generate_solution_flights, List.countP_append, List.countP_append]
    rcases hsel with ⟨rfl, rfl⟩ | ⟨rfl, rfl⟩ | ⟨rfl, rfl⟩
    · rw [block_specA_count hw.1 (by decide) (by decide),
        block_specA_other (by decide), block_specA_other (by decide)]
    · rw [block_specA_other (by decide), block_specA_count hw.2.1 (by decide) (by decide),
        block_specA_other (by decide)]
    · rw [block_specA_other (by decide), block_specA_other (by decide),
        block_specA_count hw.2.2 (by decide) (by decide)]
  rw [hSc, hIz, hFz]

/-- |B| = 4 over a full generated catalog, per designated destination. -/
theorem generated_specB_count {catalog : List Flight} (h : GeneratedCatalog catalog)
    {dst dt : String}
    (hsel : (dst = "SIN" ∧ dt = "2025-07-17") ∨ (dst = "BKK" ∧ dt = "2025-07-18") ∨
      (dst = "DEL" ∧ dt = "2025-07-19")) :
    catalog.countP (spec_validB dst dt) = 4 := by
  obtain ⟨w, interest, filler, hw, hI, hF, rfl⟩ := h
  rw [List.countP_append, List.countP_append]
  have hIz : interest.countP (spec_validB dst dt) = 0 :=
    List.countP_eq_zero.mpr (interest_not_specB hI
      (by rcases hsel with ⟨rfl, rfl⟩ | ⟨rfl, rfl⟩ | ⟨rfl, rfl⟩ <;> decide))
  have hFz : filler.countP (spec_validB dst dt) = 0 :=
    List.countP_eq_zero.mpr (filler_not_specB hF
      (by rcases hsel with ⟨rfl, rfl⟩ | ⟨rfl, rfl⟩ | ⟨rfl, rfl⟩ <;> decide))
  have hSc : (generate_solution_flights w).countP (spec_validB dst dt) = 4 := by
    rw [generate_solution_flights, List.countP_append, List.countP_append]
    rcases hsel with ⟨rfl, rfl⟩ | ⟨rfl, rfl⟩ | ⟨rfl, rfl⟩
    · rw [block_specB_count hw.1 (by decide) (by decide),
        block_specB_other (by decide), block_specB_other (by decide)]
    · rw [block_specB_other (by decide), block_specB_count hw.2.1 (by decide) (by decide),
        block_specB_other (by decide)]
    · rw [block_specB_other (by decide), block_specB_other (by decide),
        block_specB_count hw.2.2 (by decide) (by decide)]
  rw [hSc, hIz, hFz]

/-- |A ∩ B| = 2 over a full generated catalog, per designated destination. -/
theorem generated_specAB_count {catalog : List Flight} (h : GeneratedCatalog catalog)
    {dst dt : String}
    (hsel : (dst = "SIN" ∧ dt = "2025-07-17") ∨ (dst = "BKK" ∧ dt = "2025-07-18") ∨
      (dst = "DEL" ∧ dt = "2025-07-19")) :
    catalog.countP (fun f => spec_validA dst dt f && spec_validB dst dt f) = 2 := by
  obtain ⟨w, interest, filler, hw, hI, hF, rfl⟩ := h
  rw [List.countP_append, List.countP_append]
  have hsd : dt ∈ solution_dates_used "FCO" dst := by
    rcases hsel with ⟨rfl, rfl⟩ | ⟨rfl, rfl⟩ | ⟨rfl, rfl⟩ <;> decide
  have hasia : dst ∈ ASIAN_AIRPORTS := by
    rcases hsel with ⟨rfl, rfl⟩ | ⟨rfl, rfl⟩ | ⟨rfl, rfl⟩ <;> decide
  have hIz : interest.countP (fun f => spec_validA dst dt f && spec_validB dst dt f) = 0 := by
    apply List.countP_eq_zero.mpr
    intro f hf hp
    rw [Bool.and_eq_true] at hp
    exact interest_not_specA hI hsd f hf hp.1
  have hFz : filler.countP (fun f => spec_validA dst dt f && spec_validB dst dt f) = 0 := by
    apply List.countP_eq_zero.mpr
    intro f hf hp
    rw [Bool.and_eq_true] at hp
    exact filler_not_specA hF hasia f hf hp.1
  have hSc : (generate_solution_flights w).countP
      (fun f => spec_validA dst dt f && spec_validB dst dt f) = 2 := by
    rw [generate_solution_flights, List.countP_append, List.countP_append]
    rcases hsel with ⟨rfl, rfl⟩ | ⟨rfl, rfl⟩ | ⟨rfl, rfl⟩
    · rw [block_specAB_count hw.1 (by decide) (by decide),
        block_specAB_other (by decide), block_specAB_other (by decide)]
    · rw [block_specAB_other (by decide), block_specAB_count hw.2.1 (by decide) (by decide),
        block_specAB_other (by decide)]
    · rw [block_specAB_other (by decide), block_specAB_other (by decide),
        block_specAB_count hw.2.2 (by decide) (by decide)]
  rw [hSc, hIz, hFz]

theorem solution_flights_map_id (w : SolDraws) :
    (generate_solution_flights w).map Flight.id = List.range' 1 30 := by
  simp only [generate_solution_flights, destFlights, List.map_append, List.map_cons,
    List.map_nil]
  decide

/-- Over any generated catalog, flight ids are pairwise distinct: they are the
consecutive range 1, 2, …, |catalog|. -/
theorem generated_ids_nodup {catalog : List Flight} (h : GeneratedCatalog catalog) :
    (catalog.map Flight.id).Nodup := by
  obtain ⟨w, interest, filler, hw, hI, hF, rfl⟩ := h
  have hImap := genChain_map_id hI (fun prev f k hk => interestOk_id hk)
  have hFmap := genChain_map_id hF (fun prev f k hk => fillerOk_id hk)
  rw [List.map_append, List.map_append, solution_flights_map_id, hImap, hFmap]
  have h1 : List.range' 1 30 ++ List.range' 31 interest.length =
      List.range' 1 (30 + interest.length) := by
    have := List.range'_append 1 30 interest.length 1
    simpa [Nat.add_comm] using this
  rw [h1]
  have h2 : List.range' 1 (30 + interest.length) ++
      List.range' (31 + interest.length) filler.length =
      List.range' 1 (30 + interest.length + filler.length) := by
    have h := List.range'_append 1 (30 + interest.length) filler.length 1
    have he : 1 + 1 * (30 + interest.length) = 31 + interest.length := by omega
    rw [he] at h
    rw [h]
    congr 1
    omega
  rw [h2]
  exact List.nodup_range' _ _

/-! ### Aggregator lemmas -/

theorem sum_map_add (K : List String) (f g : String → ℕ) :
    (K.map (fun k => f k + g k)).sum = (K.map f).sum + (K.map g).sum := by
  induction K with
  | nil => rfl
  | cons k t ih => simp [ih]; omega

theorem sum_map_indicator {K : List String} (hnd : K.Nodup) {x : String} (hx : x ∈ K) :
    (K.map (fun k => if x = k then 1 else 0)).sum = 1 := by
  induction K with
  | nil => cases hx
  | cons k t ih =>
    rcases List.mem_cons.mp hx with rfl | hxt
    · simp only [List.map_cons, List.sum_cons, if_pos rfl]
      have hzero : (t.map (fun j => if x = j then 1 else 0)).sum = 0 := by
        apply List.sum_eq_zero
        intro n hn
        obtain ⟨j, hj, rfl⟩ := List.mem_map.mp hn
        have : x ≠ j := fun he => (List.nodup_cons.mp hnd).1 (he ▸ hj)
        simp [this]
      rw [hzero]
      simp
    · have hxk : x ≠ k := fun he => (List.nodup_cons.mp hnd).1 (he ▸ hxt)
      simp only [List.map_cons, List.sum_cons, if_neg hxk]
      rw [ih (List.nodup_cons.mp hnd).2 hxt]

theorem countP_eq_one_of_nodup {K : List String} (hnd : K.Nodup) {x : String} (hx : x ∈ K) :
    K.countP (fun k => decide (x = k)) = 1 := by
  induction K with
  | nil => cases hx
  | cons k t ih =>
    rcases List.mem_cons.mp hx with rfl | hxt
    · rw [List.countP_cons]
      have hzero : t.countP (fun j => decide (x = j)) = 0 := by
        apply List.countP_eq_zero.mpr
        intro j hj hp
        rw [decide_eq_true_eq] at hp
        exact (List.nodup_cons.mp hnd).1 (hp ▸ hj)
      rw [hzero]
      simp
    · have hxk : x ≠ k := fun he => (List.nodup_cons.mp hnd).1 (he ▸ hxt)
      rw [List.countP_cons]
      rw [ih (List.nodup_cons.mp hnd).2 hxt]
      simp [hxk]

/-- The per-key group sizes of a keyed grouping sum to the list length. -/
theorem sum_counts_over_keys {K : List String} (hnd : K.Nodup) (sols : List Solution)
    (key : Solution → String) (hcov : ∀ s ∈ sols, key s ∈ K) :
    (K.map (fun k => (sols.filter (fun s => decide (key s = k))).length)).sum
      = sols.length := by
  induction sols with
  | nil =>
    have : ∀ k ∈ K, (List.filter (fun s => decide (key s = k)) []).length = 0 := by
      intro k hk; simp
    rw [List.map_congr_left this]
    simp [List.map_const']
  | cons a t ih =>
    have hcov' : ∀ s ∈ t, key s ∈ K := fun s hs => hcov s (List.mem_cons_of_mem a hs)
    have hsplit : ∀ k ∈ K, ((a :: t).filter (fun s => decide (key s = k))).length =
        (t.filter (fun s => decide (key s = k))).length + (if key a = k then 1 else 0) := by
      intro k hk
      by_cases h : key a = k
      · rw [List.filter_cons_of_pos (by simp [h])]
        simp [h]
      · rw [List.filter_cons_of_neg (by simp [h])]
        simp [h]
    rw [List.map_congr_left hsplit, sum_map_add, ih hcov',
      sum_map_indicator hnd (hcov a (List.mem_cons_self a t))]
    simp

/-- C9: the aggregator is a pure reduction: total_count is the input length,
each of the three groupings partitions the input (group sizes sum to the
total; every solution lies in exactly one group of each grouping), and the
empty input yields the empty report. -/
theorem claim_C9_aggregator_partitions (solutions : List Solution) :
    (analyze_solutions solutions).total_count = solutions.length ∧
    ((analyze_solutions solutions).by_destination.map (fun g => g.2.length)).sum
      = solutions.length ∧
    ((analyze_solutions solutions).by_date.map (fun g => g.2.length)).sum
      = solutions.length ∧
    ((analyze_solutions solutions).by_airline_combo.map (fun g => g.2.length)).sum
      = solutions.length ∧
    (∀ sol ∈ solutions,
      (analyze_solutions solutions).by_destination.countP (fun g => decide (sol ∈ g.2)) = 1 ∧
      (analyze_solutions solutions).by_date.countP (fun g => decide (sol ∈ g.2)) = 1 ∧
      (analyze_solutions solutions).by_airline_combo.countP
        (fun g => decide (sol ∈ g.2)) = 1) ∧
    analyze_solutions [] = ⟨0, [], [], []⟩ := by
  by_cases hnil : solutions = []
  · subst hnil
    refine ⟨?_, ?_, ?_, ?_, ?_, ?_⟩ <;> simp [analyze_solutions]
  · have hgroup : ∀ (key : Solution → String),
        ((((firstDedup (solutions.map key)).map (fun k =>
          (k, solutions.filter (fun s => decide (key s = k))))).map
            (fun g => g.2.length)).sum : ℕ) = solutions.length := by
      intro key
      rw [List.map_map]
      exact sum_counts_over_keys (nodup_firstDedup _) solutions key
        (fun s hs => mem_firstDedup.mpr (List.mem_map.mpr ⟨s, hs, rfl⟩))
    have hone : ∀ (key : Solution → String), ∀ sol ∈ solutions,
        ((firstDedup (solutions.map key)).map (fun k =>
          (k, solutions.filter (fun s => decide (key s = k))))).countP
            (fun g => decide (sol ∈ g.2)) = 1 := by
      intro key sol hsol
      rw [List.countP_map]
      have hcong : ∀ k ∈ firstDedup (solutions.map key),
          ((fun g : String × List Solution => decide (sol ∈ g.2)) ∘
            (fun k => (k, solutions.filter (fun s => decide (key s = k))))) k = true ↔
          (fun k => decide (key sol = k)) k = true := by
        intro k hk
        simp only [Function.comp_apply, decide_eq_true_eq, List.mem_filter]
        simp [hsol]
      rw [List.countP_congr hcong]
      exact countP_eq_one_of_nodup (nodup_firstDedup _)
        (mem_firstDedup.mpr (List.mem_map.mpr ⟨sol, hsol, rfl⟩))
    refine ⟨?_, ?_, ?_, ?_, ?_, ?_⟩
    · simp [analyze_solutions, hnil]
    · simp only [analyze_solutions, if_neg hnil]
      exact hgroup (fun s => s.destination)
    · simp only [analyze_solutions, if_neg hnil]
      exact hgroup (fun s => s.date)
    · simp only [analyze_solutions, if_neg hnil]
      exact hgroup (fun s => s.user_1_flight.airline ++ "-" ++ s.user_2_flight.airline)
    · intro sol hsol
      refine ⟨?_, ?_, ?_⟩ <;> simp only [analyze_solutions, if_neg hnil]
      · exact hone (fun s => s.destination) sol hsol
      · exact hone (fun s => s.date) sol hsol
      · exact hone (fun s => s.user_1_flight.airline ++ "-" ++ s.user_2_flight.airline) sol hsol
    · simp [analyze_solutions]

/-! ### Claim theorems -/

/-- C2: every Solution returned by the solver at the reference configuration
satisfies the joint validity predicate: both underlying flights exist in the
catalog, share the solution's date (which lies in both agents' availability
sets, hence in the overlap {2025-07-17, 2025-07-18, 2025-07-19}), respect
each agent's budget and preferred airlines, start from each agent's origin
towards the solution's destination, and have distinct ids. -/
theorem claim_C2_solution_soundness (flights : List Flight) :
    ∀ sol ∈ find_solutions flights user_1 user_2,
      sol.date ∈ user_1.available_dates ∧ sol.date ∈ user_2.available_dates ∧
      sol.date ∈ (["2025-07-17", "2025-07-18", "2025-07-19"] : List String) ∧
      ∃ f1 ∈ flights, ∃ f2 ∈ flights,
        f1.origin = user_1.origin_airport ∧ f2.origin = user_2.origin_airport ∧
        f1.destination = sol.destination ∧ f2.destination = sol.destination ∧
        f1.date = sol.date ∧ f2.date = sol.date ∧
        f1.price ≤ user_1.max_budget ∧ f2.price ≤ user_2.max_budget ∧
        f1.airline.code ∈ user_1.preferred_airlines ∧
        f2.airline.code ∈ user_2.preferred_airlines ∧
        f1.id ≠ f2.id ∧
        sol.user_1_flight = ⟨f1.id, f1.price, f1.airline.code, f1.duration⟩ ∧
        sol.user_2_flight = ⟨f2.id, f2.price, f2.airline.code, f2.duration⟩ := by
  intro sol hsol
  rw [find_solutions_eq] at hsol
  obtain ⟨d, hd, hrest⟩ := List.mem_flatMap.mp hsol
  obtain ⟨f1, hf1, hrest2⟩ := List.mem_flatMap.mp hrest
  obtain ⟨f2, hf2, rfl⟩ := List.mem_map.mp hrest2
  obtain ⟨hm1, ho1, hdst1⟩ := mem_filter_byDest hf1
  have hf2' := List.mem_filter.mp hf2
  obtain ⟨hm2, ho2, hdst2⟩ := mem_filter_byDest hf2'.1
  have hp := hf2'.2
  rw [Bool.and_eq_true, decide_eq_true_eq] at hp
  obtain ⟨hid, hv⟩ := hp
  rw [is_valid_solution_iff] at hv
  obtain ⟨hdate, hdA, hdB, hpA, hpB, hcA, hcB⟩ := hv
  refine ⟨hdA, hdB, ?_, f1, hm1, f2, hm2, ho1, ho2, hdst1, hdst2, rfl, hdate.symm,
    hpA, hpB, hcA, hcB, hid, rfl, rfl⟩
  rcases overlap_of_both hdA hdB with h | h | h <;> simp [h]

/-- C2 witness: the two-flight sample catalog yields this concrete solution. -/
theorem claim_C2_solution_soundness_witness :
    sampleSolution ∈ find_solutions sampleFlights user_1 user_2 ∧
    (sampleSolution.date ∈ user_1.available_dates ∧
      sampleSolution.date ∈ user_2.available_dates ∧
      sampleSolution.date ∈ (["2025-07-17", "2025-07-18", "2025-07-19"] : List String) ∧
      ∃ f1 ∈ sampleFlights, ∃ f2 ∈ sampleFlights,
        f1.origin = user_1.origin_airport ∧ f2.origin = user_2.origin_airport ∧
        f1.destination = sampleSolution.destination ∧
        f2.destination = sampleSolution.destination ∧
        f1.date = sampleSolution.date ∧ f2.date = sampleSolution.date ∧
        f1.price ≤ user_1.max_budget ∧ f2.price ≤ user_2.max_budget ∧
        f1.airline.code ∈ user_1.preferred_airlines ∧
        f2.airline.code ∈ user_2.preferred_airlines ∧
        f1.id ≠ f2.id ∧
        sampleSolution.user_1_flight = ⟨f1.id, f1.price, f1.airline.code, f1.duration⟩ ∧
        sampleSolution.user_2_flight = ⟨f2.id, f2.price, f2.airline.code, f2.duration⟩) :=
  ⟨by decide, claim_C2_solution_soundness sampleFlights sampleSolution (by decide)⟩

/-- C3 counterexample: the synthesizer emits 10 flights per designated
destination, not 8 as claimed. -/
theorem claim_C3_counterexample :
    ¬ (generate_solution_flights sampleSolDraws).countP
        (fun f => decide (f.destination = "SIN")) = 8 := by decide

/-- C3 (amended): for every draw vector, the SolutionSynthesizer emits exactly
10 flights per designated destination — two shared flights, one agentB-only
budget-excluded flight, one agentB-only preference-excluded flight, and six
decoys — 30 in total. -/
theorem claim_C3_amended_block_count (w : SolDraws) :
    (generate_solution_flights w).countP (fun f => decide (f.destination = "SIN")) = 10 ∧
    (generate_solution_flights w).countP (fun f => decide (f.destination = "BKK")) = 10 ∧
    (generate_solution_flights w).countP (fun f => decide (f.destination = "DEL")) = 10 ∧
    (generate_solution_flights w).length = 30 := by
  refine ⟨?_, ?_, ?_, ?_⟩ <;>
    simp [generate_solution_flights, destFlights, List.countP_cons]

/-- C4 counterexample: the overlap-rejection clause does not apply to a
candidate whose origin is not FCO — the Guard accepts it although its date,
carrier and price all lie in both agents' overlap. -/
theorem claim_C4_counterexample :
    ("2025-07-17" ∈ user_1.available_dates ∧ "2025-07-17" ∈ user_2.available_dates ∧
      "SQ" ∈ user_1.preferred_airlines ∧ "SQ" ∈ user_2.preferred_airlines ∧
      (600 : ℚ) ≤ user_1.max_budget ∧ (600 : ℚ) ≤ user_2.max_budget) ∧
    would_create_unintended_solution "LHR" "SIN" "2025-07-17" 600 "SQ" [] = false := by
  refine ⟨by decide, ?_⟩
  exact would_create_of_not_FCO (by decide)

/-- C4 (amended): for every FCO-origin candidate whose date lies in both
agents' availability sets, whose carrier lies in both preference sets and
whose price fits both budgets, the Guard rejects outright — even with no
partner flight accepted yet. -/
theorem claim_C4_amended_guard_overlap (destination date : String) (price : ℚ)
    (airline_code : String) (existing_flights : List Flight)
    (h1 : date ∈ user_1.available_dates) (h2 : date ∈ user_2.available_dates)
    (h3 : airline_code ∈ user_1.preferred_airlines)
    (h4 : airline_code ∈ user_2.preferred_airlines)
    (h5 : price ≤ user_1.max_budget) (h6 : price ≤ user_2.max_budget) :
    would_create_unintended_solution "FCO" destination date price airline_code
      existing_flights = true := by
  rw [would_create_FCO_iff]
  exact .inr (.inr ⟨h1, h2, h3, h4, h5, h6⟩)

theorem claim_C4_amended_witness :
    ("2025-07-17" ∈ user_1.available_dates ∧ "2025-07-17" ∈ user_2.available_dates ∧
      "SQ" ∈ user_1.preferred_airlines ∧ "SQ" ∈ user_2.preferred_airlines ∧
      (600 : ℚ) ≤ user_1.max_budget ∧ (600 : ℚ) ≤ user_2.max_budget) ∧
    would_create_unintended_solution "FCO" "SIN" "2025-07-17" 600 "SQ" [] = true :=
  ⟨by decide, claim_C4_amended_guard_overlap "SIN" "2025-07-17" 600 "SQ" []
    (by decide) (by decide) (by decide) (by decide) (by decide) (by decide)⟩

/-- C10: the Guard immediately returns False for every candidate whose origin
is not FCO, regardless of all other inputs. -/
theorem claim_C10_guard_origin_scope (origin destination date : String) (price : ℚ)
    (airline_code : String) (existing_flights : List Flight) (h : origin ≠ "FCO") :
    would_create_unintended_solution origin destination date price airline_code
      existing_flights = false :=
  would_create_of_not_FCO h

theorem claim_C10_guard_origin_scope_witness :
    ("LHR" : String) ≠ "FCO" ∧
    would_create_unintended_solution "LHR" "SIN" "2025-07-17" 600 "SQ" [] = false :=
  ⟨by decide, claim_C10_guard_origin_scope "LHR" "SIN" "2025-07-17" 600 "SQ" [] (by decide)⟩

theorem calculate_flight_time_eq (d dev : ℚ) :
    calculate_flight_time d dev =
      max 1 (round1 (d / (if d > 2000 then 800 else 600) * (1 + dev))) := rfl

/-- C8: `calculate_flight_time` computes base time at 800 km/h above 2000 km
and 600 km/h otherwise, applies the jitter, rounds to one decimal and floors
at 1.0 hour (rounding and the floor commute, so the stated order agrees with
the code's `max(1.0, round(·, 1))`); the result is always ≥ 1.0 and has at
most one decimal place. -/
theorem claim_C8_flight_time (distance_km deviation : ℚ)
    (h0 : 0 ≤ distance_km) (hd1 : -(15 / 100) ≤ deviation) (hd2 : deviation ≤ 15 / 100) :
    calculate_flight_time distance_km deviation =
      round1 (max 1 (distance_km / (if distance_km > 2000 then 800 else 600) *
        (1 + deviation))) ∧
    1 ≤ calculate_flight_time distance_km deviation ∧
    ∃ n : ℤ, calculate_flight_time distance_km deviation = (n : ℚ) / 10 := by
  refine ⟨?_, ?_, ?_⟩
  · rw [calculate_flight_time_eq]
    exact round1_max_comm _
  · rw [calculate_flight_time_eq]
    exact le_max_left 1 _
  · rw [calculate_flight_time_eq]
    rcases max_cases 1 (round1 (distance_km / (if distance_km > 2000 then 800 else 600) *
        (1 + deviation))) with ⟨heq, _⟩ | ⟨heq, _⟩
    · exact ⟨10, by rw [heq]; norm_num⟩
    · exact ⟨round ((distance_km / (if distance_km > 2000 then 800 else 600) *
        (1 + deviation)) * 10), by rw [heq]; rfl⟩

theorem claim_C8_flight_time_witness :
    ((0 : ℚ) ≤ 7000 ∧ -(15 / 100) ≤ (0 : ℚ) ∧ (0 : ℚ) ≤ 15 / 100) ∧
    (calculate_flight_time 7000 0 =
      round1 (max 1 ((7000 : ℚ) / (if (7000 : ℚ) > 2000 then 800 else 600) * (1 + 0))) ∧
    1 ≤ calculate_flight_time 7000 0 ∧
    ∃ n : ℤ, calculate_flight_time 7000 0 = (n : ℚ) / 10) :=
  ⟨by norm_num, claim_C8_flight_time 7000 0 (by norm_num) (by norm_num) (by norm_num)⟩

/-- C6: when every rejection-sampling attempt is rejected, both generators'
selection loops fall back, without failing, to the deliberately invalid
fallback record: its carrier is drawn outside {SQ, LH, EK} — hence outside
both agents' preferred sets — and its price is the doubled non-solution
price, so the fallback flight can never be either side of a valid
solution. -/
theorem claim_C6_exhaustion_fallback (origin destination : String) (prev : List Flight)
    (cands1 cands2 : List Candidate) (fb : Candidate) (g : Flight)
    (distance flight_dev fb_var fb_sol : ℚ) (i : ℕ)
    (hfb : fb.airline ∈ fallback_airlines)
    (hprice : fb.price = calculate_flight_price distance
      (calculate_flight_time distance flight_dev) fb_var fb_sol false * 2)
    (hex1 : ∀ c ∈ cands1, interestAccept origin destination prev c = false)
    (hex2 : ∀ c ∈ cands2, fillerAccept origin destination prev c = false) :
    chooseCandidate (interestAccept origin destination prev) cands1 fb = fb ∧
    chooseCandidate (fillerAccept origin destination prev) cands2 fb = fb ∧
    fb.airline.code ∉ (["SQ", "LH", "EK"] : List String) ∧
    fb.airline.code ∉ user_1.preferred_airlines ∧
    fb.airline.code ∉ user_2.preferred_airlines ∧
    is_valid_solution
      { id := i, origin := origin, destination := destination, price := fb.price,
        duration := calculate_flight_time distance flight_dev, date := fb.date,
        distance_km := round1 distance, airline := fb.airline } g user_1 user_2 = false ∧
    is_valid_solution g
      { id := i, origin := origin, destination := destination, price := fb.price,
        duration := calculate_flight_time distance flight_dev, date := fb.date,
        distance_km := round1 distance, airline := fb.airline } user_1 user_2 = false := by
  have hcode := mem_fallback_airlines hfb
  have hnc1 : fb.airline.code ∉ user_1.preferred_airlines := by
    intro hmem
    simp only [user_1] at hmem
    simp only [List.mem_cons, List.not_mem_nil, or_false] at hmem
    rcases hmem with hc | hc <;> simp [hc] at hcode
  have hnc2 : fb.airline.code ∉ user_2.preferred_airlines := by
    intro hmem
    simp only [user_2] at hmem
    simp only [List.mem_cons, List.not_mem_nil, or_false] at hmem
    rcases hmem with hc | hc <;> simp [hc] at hcode
  refine ⟨?_, ?_, hcode, hnc1, hnc2, ?_, ?_⟩
  · unfold chooseCandidate
    rw [List.find?_eq_none.mpr (fun c hc => by rw [hex1 c hc]; exact Bool.false_ne_true)]
    rfl
  · unfold chooseCandidate
    rw [List.find?_eq_none.mpr (fun c hc => by rw [hex2 c hc]; exact Bool.false_ne_true)]
    rfl
  · rw [Bool.eq_false_iff]
    intro hv
    rw [is_valid_solution_iff] at hv
    exact hnc1 hv.2.2.2.2.2.1
  · rw [Bool.eq_false_iff]
    intro hv
    rw [is_valid_solution_iff] at hv
    exact hnc2 hv.2.2.2.2.2.2

theorem claim_C6_exhaustion_fallback_witness :
    sampleFallback.airline ∈ fallback_airlines ∧
    sampleFallback.price = calculate_flight_price 7000 (calculate_flight_time 7000 0)
      0 0 false * 2 ∧
    (∀ c ∈ [sampleRejected], interestAccept "FCO" "SIN" [] c = false) ∧
    (∀ c ∈ [sampleRejected], fillerAccept "FCO" "SIN" [] c = false) ∧
    (chooseCandidate (interestAccept "FCO" "SIN" []) [sampleRejected] sampleFallback =
        sampleFallback ∧
      chooseCandidate (fillerAccept "FCO" "SIN" []) [sampleRejected] sampleFallback =
        sampleFallback ∧
      sampleFallback.airline.code ∉ (["SQ", "LH", "EK"] : List String) ∧
      sampleFallback.airline.code ∉ user_1.preferred_airlines ∧
      sampleFallback.airline.code ∉ user_2.preferred_airlines ∧
      is_valid_solution
        { id := 99, origin := "FCO", destination := "SIN", price := sampleFallback.price,
          duration := calculate_flight_time 7000 0, date := sampleFallback.date,
          distance_km := round1 7000, airline := sampleFallback.airline }
        sampleFlightG user_1 user_2 = false ∧
      is_valid_solution sampleFlightG
        { id := 99, origin := "FCO", destination := "SIN", price := sampleFallback.price,
          duration := calculate_flight_time 7000 0, date := sampleFallback.date,
          distance_km := round1 7000, airline := sampleFallback.airline }
        user_1 user_2 = false) :=
  ⟨by decide, rfl, by decide, by decide,
    claim_C6_exhaustion_fallback "FCO" "SIN" [] [sampleRejected] [sampleRejected]
      sampleFallback sampleFlightG 7000 0 0 0 99 (by decide) rfl (by decide) (by decide)⟩

/-- C1: over the full generated catalog — solution, interest and filler
flights, for every admissible sequence of random draws — the Solver returns
exactly 6 ordered solutions per designated destination and 18 in total,
realised by |A| = 2, |B| = 4 and |A ∩ B| = 2 flights per designated
destination/date, so that 6 = |A|·|B| − |A∩B|. -/
theorem claim_C1_solver_counts {catalog : List Flight} (h : GeneratedCatalog catalog) :
    (find_solutions catalog user_1 user_2).length = 18 ∧
    ∀ p ∈ solution_destinations,
      (find_solutions catalog user_1 user_2).countP
        (fun sol => decide (sol.destination = p.1)) = 6 ∧
      catalog.countP (spec_validA p.1 p.2) = 2 ∧
      catalog.countP (spec_validB p.1 p.2) = 4 ∧
      catalog.countP (fun f => spec_validA p.1 p.2 f && spec_validB p.1 p.2 f) = 2 := by
  refine ⟨generated_solver_length h, ?_⟩
  intro p hp
  simp only [solution_destinations, List.mem_cons, List.not_mem_nil, or_false] at hp
  rcases hp with rfl | rfl | rfl
  · exact ⟨generated_solver_count_dest h (.inl rfl),
      generated_specA_count h (.inl ⟨rfl, rfl⟩),
      generated_specB_count h (.inl ⟨rfl, rfl⟩),
      generated_specAB_count h (.inl ⟨rfl, rfl⟩)⟩
  · exact ⟨generated_solver_count_dest h (.inr (.inl rfl)),
      generated_specA_count h (.inr (.inl ⟨rfl, rfl⟩)),
      generated_specB_count h (.inr (.inl ⟨rfl, rfl⟩)),
      generated_specAB_count h (.inr (.inl ⟨rfl, rfl⟩))⟩
  · exact ⟨generated_solver_count_dest h (.inr (.inr rfl)),
      generated_specA_count h (.inr (.inr ⟨rfl, rfl⟩)),
      generated_specB_count h (.inr (.inr ⟨rfl, rfl⟩)),
      generated_specAB_count h (.inr (.inr ⟨rfl, rfl⟩))⟩

theorem claim_C1_solver_counts_witness :
    GeneratedCatalog sampleCatalog ∧
    ((find_solutions sampleCatalog user_1 user_2).length = 18 ∧
      ∀ p ∈ solution_destinations,
        (find_solutions sampleCatalog user_1 user_2).countP
          (fun sol => decide (sol.destination = p.1)) = 6 ∧
        sampleCatalog.countP (spec_validA p.1 p.2) = 2 ∧
        sampleCatalog.countP (spec_validB p.1 p.2) = 4 ∧
        sampleCatalog.countP
          (fun f => spec_validA p.1 p.2 f && spec_validB p.1 p.2 f) = 2) := by
  have hGC : GeneratedCatalog sampleCatalog :=
    ⟨sampleSolDraws, [], [],
      by unfold SolDrawsOk DestDrawsOk sampleSolDraws sampleDestDraws; norm_num,
      GenChain.nil, GenChain.nil, by simp [sampleCatalog]⟩
  exact ⟨hGC, claim_C1_solver_counts hGC⟩

theorem generate_solution_flights_length (w : SolDraws) :
    (generate_solution_flights w).length = 30 := by
  simp [generate_solution_flights, destFlights]

theorem generated_map_id {catalog : List Flight} (h : GeneratedCatalog catalog) :
    catalog.map Flight.id = List.range' 1 catalog.length := by
  obtain ⟨w, interest, filler, hw, hI, hF, rfl⟩ := h
  have hImap := genChain_map_id hI (fun prev f k hk => interestOk_id hk)
  have hFmap := genChain_map_id hF (fun prev f k hk => fillerOk_id hk)
  rw [List.map_append, List.map_append, solution_flights_map_id, hImap, hFmap]
  have h1 : List.range' 1 30 ++ List.range' 31 interest.length =
      List.range' 1 (30 + interest.length) := by
    have := List.range'_append 1 30 interest.length 1
    simpa [Nat.add_comm] using this
  rw [h1]
  have h2 : List.range' 1 (30 + interest.length) ++
      List.range' (31 + interest.length) filler.length =
      List.range' 1 (30 + interest.length + filler.length) := by
    have h := List.range'_append 1 (30 + interest.length) filler.length 1
    have he : 1 + 1 * (30 + interest.length) = 31 + interest.length := by omega
    rw [he] at h
    rw [h]
    congr 1
    omega
  rw [h2]
  congr 1
  rw [List.length_append, List.length_append, generate_solution_flights_length]

/-- C7: flight ids of a generated catalog are pairwise distinct — they are
exactly the consecutive range produced by the monotonic id counter, each
generator continuing where the previous one stopped. -/
theorem claim_C7_unique_ids {catalog : List Flight} (h : GeneratedCatalog catalog) :
    (catalog.map Flight.id).Nodup ∧
    catalog.map Flight.id = List.range' 1 catalog.length :=
  ⟨generated_ids_nodup h, generated_map_id h⟩

theorem claim_C7_unique_ids_witness :
    GeneratedCatalog sampleCatalog ∧
    ((sampleCatalog.map Flight.id).Nodup ∧
      sampleCatalog.map Flight.id = List.range' 1 sampleCatalog.length) := by
  have hGC : GeneratedCatalog sampleCatalog :=
    ⟨sampleSolDraws, [], [],
      by unfold SolDrawsOk DestDrawsOk sampleSolDraws sampleDestDraws; norm_num,
      GenChain.nil, GenChain.nil, by simp [sampleCatalog]⟩
  exact ⟨hGC, claim_C7_unique_ids hGC⟩

/-! ### Pricing-range lemmas (C5) -/

theorem calculate_flight_price_nonsol (d t v u : ℚ) :
    calculate_flight_price d t v u false =
      round2 (max (max 150 (d * (8 / 100)))
        (min 2000
          (if d > 5000 then
            d * ((15 / 100) * (1 - min (1 / 2) (d / 10000))) * (1 + t / 12) * (1 + v) *
              (1 - min (1 / 4) ((d - 5000) / 20000))
          else
            d * ((15 / 100) * (1 - min (1 / 2) (d / 10000))) * (1 + t / 12) * (1 + v)))) := by
  unfold calculate_flight_price
  by_cases h : d > 5000 <;> simp [h]

theorem flight_time_lower (d devT s : ℚ) (hs : (0 : ℚ) < s)
    (hd0 : 0 ≤ d) (hdev1 : -(15 / 100) ≤ devT) :
    (85 / 100) * (d / s) - 1 / 20 ≤ max 1 (round1 (d / s * (1 + devT))) := by
  have h1 : d / s * (85 / 100) ≤ d / s * (1 + devT) := by
    apply mul_le_mul_of_nonneg_left ?_ (div_nonneg hd0 hs.le)
    linarith
  have h2 := round1_mono h1
  have h3 := (round1_close (d / s * (85 / 100))).1
  have h4 := le_max_right 1 (round1 (d / s * (1 + devT)))
  calc (85 / 100) * (d / s) - 1 / 20 = d / s * (85 / 100) - 1 / 20 := by ring
    _ ≤ round1 (d / s * (85 / 100)) := h3
    _ ≤ round1 (d / s * (1 + devT)) := h2
    _ ≤ max 1 (round1 (d / s * (1 + devT))) := h4

theorem product_bound4 {d rate mult vfac rmin mmin : ℚ}
    (hd0 : 0 ≤ d) (hrate : rmin ≤ rate) (hmult : mmin ≤ mult) (hv : 17 / 20 ≤ vfac)
    (hrmin : 0 ≤ rmin) (hmmin : 0 ≤ mmin) :
    d * rmin * mmin * (17 / 20) ≤ d * rate * mult * vfac := by
  have p1 : d * rmin ≤ d * rate := mul_le_mul_of_nonneg_left hrate hd0
  have q1 : 0 ≤ d * rate := le_trans (mul_nonneg hd0 hrmin) p1
  have p2 : d * rmin * mmin ≤ d * rate * mult := mul_le_mul p1 hmult hmmin q1
  have q2 : 0 ≤ d * rate * mult :=
    le_trans (mul_nonneg (mul_nonneg hd0 hrmin) hmmin) p2
  exact mul_le_mul p2 hv (by norm_num) q2

theorem product_bound5 {d rate mult vfac taper rmin mmin tmin : ℚ}
    (hd0 : 0 ≤ d) (hrate : rmin ≤ rate) (hmult : mmin ≤ mult) (hv : 17 / 20 ≤ vfac)
    (htap : tmin ≤ taper)
    (hrmin : 0 ≤ rmin) (hmmin : 0 ≤ mmin) (htmin : 0 ≤ tmin) :
    d * rmin * mmin * (17 / 20) * tmin ≤ d * rate * mult * vfac * taper := by
  have p3 := product_bound4 hd0 hrate hmult hv hrmin hmmin
  have q3 : 0 ≤ d * rate * mult * vfac := by
    refine le_trans ?_ p3
    positivity
  exact mul_le_mul p3 htap htmin q3

theorem nonsol_fp_lower (d t v devT : ℚ)
    (hd1875 : 1875 < d) (hdE : d ≤ 20016)
    (ht : t = calculate_flight_time d devT)
    (hdev1 : -(15 / 100) ≤ devT) (hv1 : -(15 / 100) ≤ v) :
    (8 / 100) * d + 1 / 200 ≤
      (if d > 5000 then
        d * ((15 / 100) * (1 - min (1 / 2) (d / 10000))) * (1 + t / 12) * (1 + v) *
          (1 - min (1 / 4) ((d - 5000) / 20000))
      else
        d * ((15 / 100) * (1 - min (1 / 2) (d / 10000))) * (1 + t / 12) * (1 + v)) := by
  have hd0 : (0 : ℚ) ≤ d := by linarith
  have hv : 17 / 20 ≤ 1 + v := by linarith
  by_cases h5000 : d > 5000
  · -- taper-active regions (s = 800, rate = 3/40 exactly)
    rw [if_pos h5000]
    have h2000 : d > 2000 := by linarith
    have hmin1 : min (1 / 2 : ℚ) (d / 10000) = 1 / 2 :=
      min_eq_left (by linarith)
    rw [hmin1]
    have hts : t = max 1 (round1 (d / 800 * (1 + devT))) := by
      rw [ht, calculate_flight_time_eq, if_pos h2000]
    have htl : (85 / 100) * (d / 800) - 1 / 20 ≤ t := by
      rw [hts]
      exact flight_time_lower d devT 800 (by norm_num) hd0 hdev1
    by_cases h10000 : d ≤ 10000
    · have hmin2 : min (1 / 4 : ℚ) ((d - 5000) / 20000) = (d - 5000) / 20000 :=
        min_eq_right (by linarith)
      rw [hmin2]
      by_cases h7500 : d ≤ 7500
      · -- region (5000, 7500]
        have hmult : (1381 / 960 : ℚ) ≤ 1 + t / 12 := by linarith
        have htap : (7 / 8 : ℚ) ≤ 1 - (d - 5000) / 20000 := by linarith
        have hb := product_bound5 hd0 (le_refl ((15 / 100 : ℚ) * (1 - 1 / 2))) hmult hv htap
          (by norm_num) (by norm_num) (by norm_num)
        linarith
      · push_neg at h7500
        by_cases h8750 : d ≤ 8750
        · -- region (7500, 8750]
          have hmult : (3187 / 1920 : ℚ) ≤ 1 + t / 12 := by linarith
          have htap : (13 / 16 : ℚ) ≤ 1 - (d - 5000) / 20000 := by linarith
          have hb := product_bound5 hd0 (le_refl ((15 / 100 : ℚ) * (1 - 1 / 2))) hmult hv htap
            (by norm_num) (by norm_num) (by norm_num)
          linarith
        · -- region (8750, 10000]
          push_neg at h8750
          have hmult : (6799 / 3840 : ℚ) ≤ 1 + t / 12 := by linarith
          have htap : (3 / 4 : ℚ) ≤ 1 - (d - 5000) / 20000 := by linarith
          have hb := product_bound5 hd0 (le_refl ((15 / 100 : ℚ) * (1 - 1 / 2))) hmult hv htap
            (by norm_num) (by norm_num) (by norm_num)
          linarith
    · -- region (10000, 20016]
      push_neg at h10000
      have hmin2 : min (1 / 4 : ℚ) ((d - 5000) / 20000) = 1 / 4 :=
        min_eq_left (by linarith)
      rw [hmin2]
      have hmult : (301 / 160 : ℚ) ≤ 1 + t / 12 := by linarith
      have hb := product_bound5 hd0 (le_refl ((15 / 100 : ℚ) * (1 - 1 / 2))) hmult hv
        (le_refl ((1 : ℚ) - 1 / 4)) (by norm_num) (by norm_num) (by norm_num)
      linarith
  · -- no-taper regions: 1875 < d ≤ 5000
    rw [if_neg h5000]
    push_neg at h5000
    have hmin1 : min (1 / 2 : ℚ) (d / 10000) = d / 10000 :=
      min_eq_right (by linarith)
    rw [hmin1]
    by_cases h2000 : d > 2000
    · have hts : t = max 1 (round1 (d / 800 * (1 + devT))) := by
        rw [ht, calculate_flight_time_eq, if_pos h2000]
      have htl : (85 / 100) * (d / 800) - 1 / 20 ≤ t := by
        rw [hts]
        exact flight_time_lower d devT 800 (by norm_num) hd0 hdev1
      by_cases h3500 : d ≤ 3500
      · -- region (2000, 3500]
        have hrate : (39 / 400 : ℚ) ≤ (15 / 100) * (1 - d / 10000) := by linarith
        have hmult : (563 / 480 : ℚ) ≤ 1 + t / 12 := by linarith
        have hb := product_bound4 hd0 hrate hmult hv (by norm_num) (by norm_num)
        linarith
      · -- region (3500, 5000]
        push_neg at h3500
        have hrate : (3 / 40 : ℚ) ≤ (15 / 100) * (1 - d / 10000) := by linarith
        have hmult : (2507 / 1920 : ℚ) ≤ 1 + t / 12 := by linarith
        have hb := product_bound4 hd0 hrate hmult hv (by norm_num) (by norm_num)
        linarith
    · -- region (1875, 2000]
      push_neg at h2000
      have hts : t = max 1 (round1 (d / 600 * (1 + devT))) := by
        rw [ht, calculate_flight_time_eq, if_neg (by linarith)]
      have htl : (85 / 100) * (d / 600) - 1 / 20 ≤ t := by
        rw [hts]
        exact flight_time_lower d devT 600 (by norm_num) hd0 hdev1
      have hrate : (3 / 25 : ℚ) ≤ (15 / 100) * (1 - d / 10000) := by linarith
      have hmult : (779 / 640 : ℚ) ≤ 1 + t / 12 := by linarith
      have hb := product_bound4 hd0 hrate hmult hv (by norm_num) (by norm_num)
      linarith

theorem nonsol_clamp_bounds (d FP : ℚ) (hd0 : 0 ≤ d) (hdE : d ≤ 20016)
    (hkey : 1875 < d → (8 / 100) * d + 1 / 200 ≤ FP) :
    max 150 (d * (8 / 100)) ≤ round2 (max (max 150 (d * (8 / 100))) (min 2000 FP)) ∧
      round2 (max (max 150 (d * (8 / 100))) (min 2000 FP)) ≤ 2000 := by
  constructor
  · by_cases hreg : d ≤ 1875
    · have h08 : d * (8 / 100) ≤ 150 := by linarith
      rw [max_eq_left h08]
      have h150 : ((150 : ℤ) : ℚ) ≤ max (150 : ℚ) (min 2000 FP) := by
        push_cast
        exact le_max_left _ _
      have := le_round2 h150
      push_cast at this
      linarith
    · push_neg at hreg
      have hkey' := hkey hreg
      have h150 : (150 : ℚ) ≤ d * (8 / 100) := by linarith
      rw [max_eq_right h150]
      have hmin : (8 / 100) * d + 1 / 200 ≤ min (2000 : ℚ) FP :=
        le_min (by linarith) hkey'
      have hc : (8 / 100) * d + 1 / 200 ≤ max (d * (8 / 100)) (min 2000 FP) :=
        le_trans hmin (le_max_right _ _)
      have hclose := (round2_close (max (d * (8 / 100)) (min 2000 FP))).1
      linarith
  · have hmp : max (150 : ℚ) (d * (8 / 100)) ≤ 2000 := max_le (by norm_num) (by linarith)
    have hc : max (max (150 : ℚ) (d * (8 / 100))) (min 2000 FP) ≤ ((2000 : ℤ) : ℚ) := by
      push_cast
      exact max_le hmp (min_le_left _ _)
    have := round2_le hc
    push_cast at this
    linarith

/-- C5: for every distance in the geometrically possible range [0, 20016] km, every
duration produced by `calculate_flight_time` from a jitter draw in [-15%, +15%], every
price variation draw in [-15%, +20%], and every solution-price draw in [550, 680], the
pricing function returns a value in [550, 680] when `is_solution` is true, and a value
in [max 150 (0.08 * distance), 2000] when `is_solution` is false, after the final
rounding to 2 decimals. -/
theorem claim_C5_price_ranges
    (distance_km flight_time variation solDraw devT : ℚ)
    (hd0 : 0 ≤ distance_km) (hdE : distance_km ≤ 20016)
    (ht : flight_time = calculate_flight_time distance_km devT)
    (hdev1 : -(15 / 100) ≤ devT) (hdev2 : devT ≤ 15 / 100)
    (hvar1 : -(15 / 100) ≤ variation) (hvar2 : variation ≤ 20 / 100)
    (hu1 : 550 ≤ solDraw) (hu2 : solDraw ≤ 680) :
    (550 ≤ calculate_flight_price distance_km flight_time variation solDraw true ∧
      calculate_flight_price distance_km flight_time variation solDraw true ≤ 680) ∧
    (max 150 (distance_km * (8 / 100)) ≤
        calculate_flight_price distance_km flight_time variation solDraw false ∧
      calculate_flight_price distance_km flight_time variation solDraw false ≤ 2000) := by
  refine ⟨⟨?_, ?_⟩, ?_⟩
  · rw [calculate_flight_price_sol]
    have := le_round2 (n := 550) (x := solDraw) (by push_cast; linarith)
    push_cast at this
    linarith
  · rw [calculate_flight_price_sol]
    have := round2_le (n := 680) (x := solDraw) (by push_cast; linarith)
    push_cast at this
    linarith
  · rw [calculate_flight_price_nonsol]
    exact nonsol_clamp_bounds distance_km _ hd0 hdE
      (fun h1875 =>
        nonsol_fp_lower distance_km flight_time variation devT h1875 hdE ht hdev1 hvar1)

theorem claim_C5_price_ranges_witness :
    (550 ≤ calculate_flight_price 7000 (calculate_flight_time 7000 0) 0 600 true ∧
      calculate_flight_price 7000 (calculate_flight_time 7000 0) 0 600 true ≤ 680) ∧
    (max 150 (7000 * (8 / 100)) ≤
        calculate_flight_price 7000 (calculate_flight_time 7000 0) 0 600 false ∧
      calculate_flight_price 7000 (calculate_flight_time 7000 0) 0 600 false ≤ 2000) :=
  claim_C5_price_ranges 7000 (calculate_flight_time 7000 0) 0 600 0
    (by norm_num) (by norm_num) rfl (by norm_num) (by norm_num) (by norm_num)
    (by norm_num) (by norm_num) (by norm_num)
